import Mathlib

/-! EVR present engine (LibISDB, `EVRPresentEngine.cpp`)

A shallow embedding of `LibISDB::DirectShow::EVRPresentEngine`.

* Native objects (windows, monitors, devices, surfaces, swap chains, samples)
  are handles, natural numbers; a nullable pointer is an `Option`.
* Every call into Direct3D / Media Foundation / GDI is answered by a field of
  a response record passed to the embedded method.  An out-parameter of a
  native call is taken when the call succeeded and is null otherwise.
* Every embedded method returns the new engine state and the trace of native
  calls it issued.
* 32-bit unsigned arithmetic (`UINT`, `DWORD`) is arithmetic on `Nat` reduced
  modulo `2^32`.
* Dereferencing a null `m_Device`, and a `CopyMemory` that leaves the
  allocated block, have no defined result: the embedded method returns `none`.
* The class declaration (`EVRPresentEngine.hpp`) is not among the sources:
  the data members are those the method bodies use, and the two virtual hooks
  `OnCreateVideoSamples` / `OnReleaseResources` are answered like native
  calls.  The locks are not modelled; every method runs to completion.
-/

namespace LibISDB.DirectShow

/-! ## Windows SDK scalar types and constants -/

/-- A `HRESULT` is a signed 32-bit value; failure codes are negative. -/
abbrev HRESULT := Int

/-- The `SUCCEEDED` test of the Windows SDK: `hr >= 0`. -/
def SUCCEEDED (hr : HRESULT) : Bool := decide (0 ≤ hr)

/-- The `FAILED` test of the Windows SDK: `hr < 0`. -/
def FAILED (hr : HRESULT) : Bool := decide (hr < 0)

def S_OK : HRESULT := 0
def S_FALSE : HRESULT := 1
def E_NOTIMPL : HRESULT := 0x80004001 - 0x100000000
def E_POINTER : HRESULT := 0x80004003 - 0x100000000
def E_FAIL : HRESULT := 0x80004005 - 0x100000000
def E_OUTOFMEMORY : HRESULT := 0x8007000E - 0x100000000
def E_INVALIDARG : HRESULT := 0x80070057 - 0x100000000
def S_PRESENT_MODE_CHANGED : HRESULT := 0x08760877
def S_PRESENT_OCCLUDED : HRESULT := 0x08760878
def D3DERR_DEVICELOST : HRESULT := 0x88760868 - 0x100000000
def D3DERR_DEVICENOTRESET : HRESULT := 0x88760869 - 0x100000000
def D3DERR_DEVICEREMOVED : HRESULT := 0x88760870 - 0x100000000
def D3DERR_DEVICEHUNG : HRESULT := 0x88760874 - 0x100000000
def MF_E_INVALIDREQUEST : HRESULT := 0xC00D36B2 - 0x100000000
def MF_E_NOT_INITIALIZED : HRESULT := 0xC00D36B6 - 0x100000000
def MF_E_UNEXPECTED : HRESULT := 0xC00D36BB - 0x100000000

/-- The modulus of `UINT` / `DWORD` arithmetic. -/
def UINT_MOD : Nat := 4294967296

abbrev HWND := Nat
abbrev HMONITOR := Nat
abbrev HDC := Nat
abbrev DeviceHandle := Nat
abbrev SurfaceHandle := Nat
abbrev SwapChainHandle := Nat
abbrev SampleHandle := Nat

/-- The `D3DFORMAT` tags the engine tests for (values of `d3d9types.h`). -/
def D3DFMT_UNKNOWN : Nat := 0
def D3DFMT_R8G8B8 : Nat := 20
def D3DFMT_A8R8G8B8 : Nat := 21
def D3DFMT_X8R8G8B8 : Nat := 22

/-- The format tag `D3DFMT_R5G6B5` of `d3d9types.h`, a 16-bit format. -/
def D3DFMT_R5G6B5 : Nat := 23

/-- The Win32 `RECT`; the four members are `LONG`. -/
structure RECT where
  left : Int
  top : Int
  right : Int
  bottom : Int
deriving DecidableEq, Repr

/-- The Win32 `EqualRect`. -/
def EqualRect (a b : RECT) : Bool := decide (a = b)

/-- The members of `D3DSURFACE_DESC` the engine reads. -/
structure D3DSURFACE_DESC where
  Format : Nat
  Width : Nat
  Height : Nat
deriving DecidableEq, Repr

/-- The result of `LockRect`: `Pitch` is an `INT`, `pBits` the memory the
pointer designates, a byte for every offset from it. -/
structure D3DLOCKED_RECT where
  Pitch : Int
  pBits : Nat → Nat

/-- The members of `D3DDISPLAYMODE`. -/
structure D3DDISPLAYMODE where
  Width : Nat
  Height : Nat
  RefreshRate : Nat
  Format : Nat
deriving DecidableEq, Repr

/-- The Win32 `BITMAPINFOHEADER`; every member holds its raw bit pattern
(`LONG` members in two's complement). -/
structure BITMAPINFOHEADER where
  biSize : Nat
  biWidth : Nat
  biHeight : Nat
  biPlanes : Nat
  biBitCount : Nat
  biCompression : Nat
  biSizeImage : Nat
  biXPelsPerMeter : Nat
  biYPelsPerMeter : Nat
  biClrUsed : Nat
  biClrImportant : Nat
deriving DecidableEq, Repr

/-- The value of `sizeof(BITMAPINFOHEADER)`. -/
def sizeof_BITMAPINFOHEADER : Nat := 40

/-- A block returned by `CoTaskMemAlloc`: its size and its bytes. -/
structure TaskMem where
  size : Nat
  bytes : Nat → Nat

/-- The byte at offset `i` of a block, when `i` lies inside the block. -/
def TaskMem.get? (m : TaskMem) (i : Nat) : Option Nat :=
  if i < m.size then some (m.bytes i) else none

/-- The Win32 `CopyMemory(dst + off, src + srcOff, n)`; a copy that leaves the
destination block has no defined result. -/
def CopyMemory (dst : TaskMem) (off : Nat) (src : Nat → Nat) (srcOff n : Nat) :
    Option TaskMem :=
  if off + n ≤ dst.size then
    some { size := dst.size
           bytes := fun i => if off ≤ i ∧ i < off + n then src (srcOff + (i - off)) else dst.bytes i }
  else none

/-- What `ZeroMemory` over the bytes `[4, 4 + n)` of the header leaves in a
little-endian member of `size` bytes at offset `off` holding `v`. -/
def zeroedMember (off size n v : Nat) : Nat :=
  let k := min size (4 + n - off)
  v / 256 ^ k * 256 ^ k

/-- Statement `::ZeroMemory(&pBih->biSize + 1, pBih->biSize - sizeof(pBih->biSize))`.
The extent is defined while it stays inside the header. -/
def zeroHeaderTail (bih : BITMAPINFOHEADER) : Option BITMAPINFOHEADER :=
  if 4 ≤ bih.biSize ∧ bih.biSize ≤ sizeof_BITMAPINFOHEADER then
    let n := bih.biSize - 4
    some { biSize := bih.biSize
           biWidth := zeroedMember 4 4 n bih.biWidth
           biHeight := zeroedMember 8 4 n bih.biHeight
           biPlanes := zeroedMember 12 2 n bih.biPlanes
           biBitCount := zeroedMember 14 2 n bih.biBitCount
           biCompression := zeroedMember 16 4 n bih.biCompression
           biSizeImage := zeroedMember 20 4 n bih.biSizeImage
           biXPelsPerMeter := zeroedMember 24 4 n bih.biXPelsPerMeter
           biYPelsPerMeter := zeroedMember 28 4 n bih.biYPelsPerMeter
           biClrUsed := zeroedMember 32 4 n bih.biClrUsed
           biClrImportant := zeroedMember 36 4 n bih.biClrImportant }
  else none

/-! ## `GetDibFromSurface` -/

/-- The answers of the native calls of `GetDibFromSurface`: `LockRect` with
the rectangle it fills in, and `CoTaskMemAlloc` (`none` is a null return,
`some g` a block whose bytes are initially `g`). -/
structure DibResponses where
  lockRect : HRESULT
  Rect : D3DLOCKED_RECT
  alloc : Option (Nat → Nat)

/-- What `GetDibFromSurface` leaves behind: its result, the header, and the
out-parameters `*pDib` and `*pcbDib` when they were assigned. -/
structure DibResult where
  hr : HRESULT
  bih : BITMAPINFOHEADER
  pDib : Option TaskMem
  pcbDib : Option Nat

/-- Statement `const int BytesPerPixel = (Desc.Format == D3DFMT_R8G8B8) ? 3 : 4;` -/
def BytesPerPixel (Desc : D3DSURFACE_DESC) : Nat :=
  if Desc.Format = D3DFMT_R8G8B8 then 3 else 4

/-- Statement `const DWORD RowStride = ((Desc.Width * BytesPerPixel) + 3) & ~3;` -/
def RowStride (Desc : D3DSURFACE_DESC) : Nat :=
  (((Desc.Width * BytesPerPixel Desc) % UINT_MOD + 3) % UINT_MOD) &&& (UINT_MOD - 1 - 3)

/-- Statement `const DWORD PixelBytes = RowStride * Desc.Height;` -/
def PixelBytes (Desc : D3DSURFACE_DESC) : Nat :=
  (RowStride Desc * Desc.Height) % UINT_MOD

/-- The row loop of `GetDibFromSurface`, `n` rows from row `y` on:
`CopyMemory(pBits + ((Desc.Height - 1 - y) * RowStride),
 Rect.pBits + (y * Rect.Pitch), Desc.Width * BytesPerPixel)`. -/
def copyRows (Desc : D3DSURFACE_DESC) (Rect : D3DLOCKED_RECT) :
    Nat → Nat → TaskMem → Option TaskMem
  | 0, _, pBits => some pBits
  | n + 1, y, pBits =>
    match CopyMemory pBits (((Desc.Height - 1 - y) * RowStride Desc) % UINT_MOD)
        Rect.pBits ((((y : Int) * Rect.Pitch) % (UINT_MOD : Int)).toNat)
        ((Desc.Width * BytesPerPixel Desc) % UINT_MOD) with
    | none => none
    | some pBits1 => copyRows Desc Rect n (y + 1) pBits1

/-- Method `EVRPresentEngine::GetDibFromSurface`. -/
def GetDibFromSurface (Desc : D3DSURFACE_DESC) (bih : BITMAPINFOHEADER) (w : DibResponses) :
    Option DibResult :=
  if FAILED w.lockRect then
    some { hr := w.lockRect, bih := bih, pDib := none, pcbDib := none }
  else
    match w.alloc with
    | none => some { hr := E_OUTOFMEMORY, bih := bih, pDib := none, pcbDib := none }
    | some g =>
      match zeroHeaderTail bih with
      | none => none
      | some z =>
        let bih1 : BITMAPINFOHEADER :=
          { z with biWidth := Desc.Width % UINT_MOD
                   biHeight := Desc.Height % UINT_MOD
                   biPlanes := 1
                   biBitCount := BytesPerPixel Desc * 8
                   biSizeImage := PixelBytes Desc }
        match copyRows Desc w.Rect Desc.Height 0 { size := PixelBytes Desc, bytes := g } with
        | none => none
        | some pBits =>
          some { hr := w.lockRect, bih := bih1, pDib := some pBits, pcbDib := some (PixelBytes Desc) }

/-! ## Engine state and native-call trace -/

/-- The members of `D3DPRESENT_PARAMETERS` that `InitPresentParameters`
assigns; every other member is zero after its `ZeroMemory`. -/
structure D3DPRESENT_PARAMETERS where
  BackBufferWidth : Nat
  BackBufferHeight : Nat
  BackBufferFormat : Nat
  SwapEffect : Nat
  hDeviceWindow : Option HWND
  Windowed : Bool
  Flags : Nat
  PresentationInterval : Nat
deriving DecidableEq, Repr

/-- The structure after `ZeroMemory(pPP, sizeof(D3DPRESENT_PARAMETERS))`. -/
def D3DPRESENT_PARAMETERS.zero : D3DPRESENT_PARAMETERS :=
  { BackBufferWidth := 0, BackBufferHeight := 0, BackBufferFormat := 0, SwapEffect := 0,
    hDeviceWindow := none, Windowed := false, Flags := 0, PresentationInterval := 0 }

def D3DADAPTER_DEFAULT : Nat := 0
def D3DDEVTYPE_HAL : Nat := 1
def D3DSWAPEFFECT_COPY : Nat := 3
def D3DPRESENTFLAG_VIDEO : Nat := 0x10
def D3DPRESENT_INTERVAL_DEFAULT : Nat := 0
def D3DPRESENT_INTERVAL_IMMEDIATE : Nat := 0x80000000
def D3DDEVCAPS_HWTRANSFORMANDLIGHT : Nat := 0x10000
def D3DCREATE_FPU_PRESERVE : Nat := 0x2
def D3DCREATE_MULTITHREADED : Nat := 0x4
def D3DCREATE_SOFTWARE_VERTEXPROCESSING : Nat := 0x20
def D3DCREATE_HARDWARE_VERTEXPROCESSING : Nat := 0x40
def D3DCREATE_NOWINDOWCHANGES : Nat := 0x800

/-- The result type of `CheckDeviceState`. -/
inductive DeviceState where
  | OK
  | Reset
  | Removed
deriving DecidableEq, Repr

/-- A sample of the output queue: the sample object, the back buffer it was
created from, and its `SampleAttribute_SwapChain` attribute. -/
structure VideoSample where
  pSample : SampleHandle
  pSurface : SurfaceHandle
  swapChain : Option SwapChainHandle
deriving DecidableEq, Repr

/-- The native calls recorded in a trace, in the order issued; a call records
its result where the engine branches on it.  Of the reference counting, the
`Release` calls by which a method drops an object are recorded; `AddRef`, the
release of the media buffer and of the surface inside `PresentSample`, and
`UnlockRect` are not. -/
inductive NativeCall where
  | CheckDeviceState (dev : DeviceHandle) (hwnd : Option HWND) (hr : HRESULT)
  | CreateDeviceEx (Adapter : Nat) (hFocusWindow : Option HWND) (BehaviorFlags : Nat)
      (pp : D3DPRESENT_PARAMETERS) (hr : HRESULT)
  | ResetDevice (dev : DeviceHandle) (token : Nat) (hr : HRESULT)
  | DeviceRelease (dev : DeviceHandle)
  | SurfaceRelease (surf : SurfaceHandle)
  | SwapChainPresent (sc : SwapChainHandle) (rcDest : RECT) (hwnd : HWND) (hr : HRESULT)
  | GetDC (hwnd : Option HWND)
  | FillRect (hdc : HDC) (rc : RECT)
  | ReleaseDC (hwnd : Option HWND) (hdc : HDC)
  | CreateAdditionalSwapChain (dev : DeviceHandle) (pp : D3DPRESENT_PARAMETERS) (hr : HRESULT)
  | SwapChainRelease (sc : SwapChainHandle)
  | ColorFill (dev : DeviceHandle) (surf : SurfaceHandle) (hr : HRESULT)
  | SampleRelease (s : SampleHandle)
  | CreateOffscreenPlainSurface (dev : DeviceHandle) (Width Height Format : Nat) (hr : HRESULT)
  | GetRenderTargetData (dev : DeviceHandle) (src dst : SurfaceHandle) (hr : HRESULT)
deriving DecidableEq, Repr

/-- The data members of `EVRPresentEngine` (the two locks apart). -/
structure EVRPresentEngine where
  m_D3D9 : Option Nat
  m_DeviceManager : Option Nat
  m_Device : Option DeviceHandle
  m_DeviceResetToken : Nat
  m_hwnd : Option HWND
  m_rcDestRect : RECT
  m_DisplayMode : D3DDISPLAYMODE
  m_SurfaceRepaint : Option SurfaceHandle
  m_LastPresentTime : Int
deriving DecidableEq, Repr

/-- What a method leaves behind: its return value, the engine, the trace. -/
structure Outcome (α : Type) where
  ret : α
  engine : EVRPresentEngine
  trace : List NativeCall

namespace EVRPresentEngine

/-! ## Destination rectangle -/

/-- Method `EVRPresentEngine::UpdateDestRect`; `rcView` is what `GetClientRect`
stores for `m_hwnd`. -/
def UpdateDestRect (e : EVRPresentEngine) (rcView : RECT) : HRESULT × EVRPresentEngine :=
  match e.m_hwnd with
  | none => (S_FALSE, e)
  | some _ =>
    let r1 : RECT :=
      if e.m_rcDestRect.right > rcView.right then { e.m_rcDestRect with right := rcView.right }
      else e.m_rcDestRect
    let r2 : RECT :=
      if r1.bottom > rcView.bottom then { r1 with bottom := rcView.bottom } else r1
    (S_OK, { e with m_rcDestRect := r2 })

/-- Method `EVRPresentEngine::SetDestinationRect`. -/
def SetDestinationRect (e : EVRPresentEngine) (rcDest : RECT) (rcView : RECT) :
    Outcome HRESULT :=
  if !EqualRect rcDest e.m_rcDestRect then
    { ret := S_OK, engine := (UpdateDestRect { e with m_rcDestRect := rcDest } rcView).2, trace := [] }
  else
    { ret := S_OK, engine := e, trace := [] }

/-! ## Device creation -/

/-- The loop of `FindAdapter`, `n` adapters from adapter `i` on. -/
def FindAdapter.loop (GetAdapterMonitor : Nat → Option HMONITOR) (hMonitor : Option HMONITOR) :
    Nat → Nat → Option Nat
  | 0, _ => none
  | n + 1, i =>
    match GetAdapterMonitor i with
    | none => none
    | some hMonitorTmp =>
      if some hMonitorTmp = hMonitor then some i
      else FindAdapter.loop GetAdapterMonitor hMonitor n (i + 1)

/-- The function `FindAdapter`: its result and `*pAdapterID` afterwards. -/
def FindAdapter (AdapterCount : Nat) (GetAdapterMonitor : Nat → Option HMONITOR)
    (hMonitor : Option HMONITOR) (AdapterID : Nat) : HRESULT × Nat :=
  match FindAdapter.loop GetAdapterMonitor hMonitor AdapterCount 0 with
  | some i => (S_OK, i)
  | none => (E_FAIL, AdapterID)

/-- The answers of the desktop-composition query of `InitPresentParameters`:
whether `dwmapi.dll` is loaded, whether it exports `DwmIsCompositionEnabled`,
and the flag that function stores. -/
structure DwmResponses where
  hDwmLib : Bool
  pDwmIsCompositionEnabled : Bool
  CompositionEnabled : Bool

/-- Method `EVRPresentEngine::InitPresentParameters`. -/
def InitPresentParameters (dwm : DwmResponses) (hwnd : Option HWND) (Width Height Format : Nat) :
    D3DPRESENT_PARAMETERS :=
  let CompositionEnabled : Bool :=
    if dwm.hDwmLib then
      if dwm.pDwmIsCompositionEnabled then dwm.CompositionEnabled else false
    else false
  { D3DPRESENT_PARAMETERS.zero with
    BackBufferWidth := Width
    BackBufferHeight := Height
    BackBufferFormat := Format
    SwapEffect := D3DSWAPEFFECT_COPY
    hDeviceWindow := hwnd
    Windowed := true
    Flags := D3DPRESENTFLAG_VIDEO
    PresentationInterval :=
      if CompositionEnabled then D3DPRESENT_INTERVAL_IMMEDIATE else D3DPRESENT_INTERVAL_DEFAULT }

/-- The answers of the native calls of `CreateD3DDevice`. -/
structure CreateDeviceResponses where
  hMonitor : Option HMONITOR
  AdapterCount : Nat
  GetAdapterMonitor : Nat → Option HMONITOR
  getDeviceCaps : HRESULT
  DevCaps : Nat
  desktopWindow : Option HWND
  dwm : DwmResponses
  createDeviceEx : HRESULT
  pDevice : DeviceHandle
  getAdapterDisplayMode : HRESULT
  DisplayMode : D3DDISPLAYMODE
  resetDevice : HRESULT

/-- Method `COMPointer::Attach` on `m_Device`: the held device is released. -/
def attachTrace (old : Option DeviceHandle) : List NativeCall :=
  match old with
  | none => []
  | some d => [NativeCall.DeviceRelease d]

/-- Method `EVRPresentEngine::CreateD3DDevice`, the adapter selection: the result of
`FindAdapter` (or `S_OK` when no window is set) and `AdapterID`. -/
def CreateD3DDevice.adapter (e : EVRPresentEngine) (w : CreateDeviceResponses) : HRESULT × Nat :=
  match e.m_hwnd with
  | none => (S_OK, D3DADAPTER_DEFAULT)
  | some _ => FindAdapter w.AdapterCount w.GetAdapterMonitor w.hMonitor D3DADAPTER_DEFAULT

/-- Method `EVRPresentEngine::CreateD3DDevice`, after `CreateDeviceEx` has succeeded:
`GetAdapterDisplayMode`, `ResetDevice`, then `m_Device.Attach(pDevice)` or
`pDevice->Release()`; `t` is the trace so far. -/
def CreateD3DDevice.attach (e : EVRPresentEngine) (w : CreateDeviceResponses)
    (t : List NativeCall) : Outcome HRESULT :=
  if SUCCEEDED w.getAdapterDisplayMode then
    let t1 := t ++ [NativeCall.ResetDevice w.pDevice e.m_DeviceResetToken w.resetDevice]
    if SUCCEEDED w.resetDevice then
      { ret := w.resetDevice
        engine := { e with m_DisplayMode := w.DisplayMode, m_Device := some w.pDevice }
        trace := t1 ++ attachTrace e.m_Device }
    else
      { ret := w.resetDevice, engine := { e with m_DisplayMode := w.DisplayMode },
        trace := t1 ++ [NativeCall.DeviceRelease w.pDevice] }
  else
    { ret := w.getAdapterDisplayMode, engine := e,
      trace := t ++ [NativeCall.DeviceRelease w.pDevice] }

/-- Method `EVRPresentEngine::CreateD3DDevice`, from `GetDeviceCaps` on, for the
adapter selected. -/
def CreateD3DDevice.device (e : EVRPresentEngine) (w : CreateDeviceResponses) (AdapterID : Nat) :
    Outcome HRESULT :=
  if FAILED w.getDeviceCaps then { ret := w.getDeviceCaps, engine := e, trace := [] }
  else
    let Vertex : Nat :=
      if w.DevCaps &&& D3DDEVCAPS_HWTRANSFORMANDLIGHT ≠ 0 then D3DCREATE_HARDWARE_VERTEXPROCESSING
      else D3DCREATE_SOFTWARE_VERTEXPROCESSING
    let pp := InitPresentParameters w.dwm w.desktopWindow 1 1 D3DFMT_UNKNOWN
    let t : List NativeCall :=
      [NativeCall.CreateDeviceEx AdapterID pp.hDeviceWindow
        (Vertex ||| D3DCREATE_NOWINDOWCHANGES ||| D3DCREATE_MULTITHREADED ||| D3DCREATE_FPU_PRESERVE)
        pp w.createDeviceEx]
    if FAILED w.createDeviceEx then { ret := w.createDeviceEx, engine := e, trace := t }
    else CreateD3DDevice.attach e w t

/-- Method `EVRPresentEngine::CreateD3DDevice`. -/
def CreateD3DDevice (e : EVRPresentEngine) (w : CreateDeviceResponses) : Outcome HRESULT :=
  if e.m_D3D9.isNone || e.m_DeviceManager.isNone then
    { ret := MF_E_NOT_INITIALIZED, engine := e, trace := [] }
  else if FAILED (CreateD3DDevice.adapter e w).1 then
    { ret := (CreateD3DDevice.adapter e w).1, engine := e, trace := [] }
  else CreateD3DDevice.device e w (CreateD3DDevice.adapter e w).2

/-- Method `EVRPresentEngine::SetVideoWindow`. -/
def SetVideoWindow (e : EVRPresentEngine) (hwnd : Option HWND) (rcView : RECT)
    (w : CreateDeviceResponses) : Outcome HRESULT :=
  CreateD3DDevice (UpdateDestRect { e with m_hwnd := hwnd } rcView).2 w

/-- The answers of the native calls of `CheckDeviceState`. -/
structure CheckResponses where
  checkDeviceState : HRESULT
  create : CreateDeviceResponses

/-- Method `EVRPresentEngine::CheckDeviceState`; the second component of the return
value is `*pState`. -/
def CheckDeviceState (e : EVRPresentEngine) (w : CheckResponses) :
    Option (Outcome (HRESULT × DeviceState)) :=
  match e.m_Device with
  | none => none
  | some dev =>
    let hr := w.checkDeviceState
    let t0 : List NativeCall := [NativeCall.CheckDeviceState dev e.m_hwnd hr]
    if hr = S_OK ∨ hr = S_PRESENT_OCCLUDED ∨ hr = S_PRESENT_MODE_CHANGED then
      some { ret := (S_OK, DeviceState.OK), engine := e, trace := t0 }
    else if hr = D3DERR_DEVICELOST ∨ hr = D3DERR_DEVICEHUNG then
      let r := CreateD3DDevice e w.create
      if FAILED r.ret then
        some { ret := (r.ret, DeviceState.OK), engine := r.engine, trace := t0 ++ r.trace }
      else
        some { ret := (S_OK, DeviceState.Reset), engine := r.engine, trace := t0 ++ r.trace }
    else if hr = D3DERR_DEVICEREMOVED then
      some { ret := (hr, DeviceState.Removed), engine := e, trace := t0 }
    else if hr = E_INVALIDARG then
      some { ret := (S_OK, DeviceState.OK), engine := e, trace := t0 }
    else
      some { ret := (hr, DeviceState.OK), engine := e, trace := t0 }

/-! ## Presentation -/

/-- Method `EVRPresentEngine::PaintFrameWithGDI`; `hdc` is what `GetDC(m_hwnd)`
returns. -/
def PaintFrameWithGDI (e : EVRPresentEngine) (hdc : Option HDC) : List NativeCall :=
  match hdc with
  | none => [NativeCall.GetDC e.m_hwnd]
  | some h =>
    [NativeCall.GetDC e.m_hwnd, NativeCall.FillRect h e.m_rcDestRect, NativeCall.ReleaseDC e.m_hwnd h]

/-- Method `EVRPresentEngine::PresentSwapChain`; `present` is what
`IDirect3DSwapChain9::Present` returns. -/
def PresentSwapChain (e : EVRPresentEngine) (pSwapChain : SwapChainHandle) (present : HRESULT) :
    HRESULT × List NativeCall :=
  match e.m_hwnd with
  | none => (MF_E_INVALIDREQUEST, [])
  | some hwnd => (present, [NativeCall.SwapChainPresent pSwapChain e.m_rcDestRect hwnd present])

/-- The answers of the native calls of `PresentSample`; `getDC1` answers the
paint of the no-surface branch, `getDC2` the paint after a device error. -/
structure PresentResponses where
  getBufferByIndex : HRESULT
  mfGetService : HRESULT
  pSurface : SurfaceHandle
  getContainer : HRESULT
  pSwapChain : SwapChainHandle
  present : HRESULT
  getDC1 : Option HDC
  getDC2 : Option HDC

/-- The first part of `PresentSample`: the result so far and `pSurface`. -/
def PresentSample.surface (e : EVRPresentEngine) (pSample : Option SampleHandle)
    (w : PresentResponses) : HRESULT × Option SurfaceHandle :=
  match pSample with
  | some _ =>
    if SUCCEEDED w.getBufferByIndex then
      (w.mfGetService, if SUCCEEDED w.mfGetService then some w.pSurface else none)
    else (w.getBufferByIndex, none)
  | none =>
    match e.m_SurfaceRepaint with
    | some s => (S_OK, some s)
    | none => (S_OK, none)

/-- The last part of `PresentSample`: the paint after a device error. -/
def PresentSample.finish (e : EVRPresentEngine) (hr : HRESULT) (w : PresentResponses)
    (t : List NativeCall) : Outcome HRESULT :=
  if FAILED hr then
    if hr = D3DERR_DEVICELOST ∨ hr = D3DERR_DEVICENOTRESET ∨ hr = D3DERR_DEVICEHUNG then
      { ret := S_OK, engine := e, trace := t ++ PaintFrameWithGDI e w.getDC2 }
    else { ret := hr, engine := e, trace := t }
  else { ret := hr, engine := e, trace := t }

/-- Method `EVRPresentEngine::PresentSample`. -/
def PresentSample (e : EVRPresentEngine) (pSample : Option SampleHandle) (llTarget : Int)
    (w : PresentResponses) : Outcome HRESULT :=
  match PresentSample.surface e pSample w with
  | (_, some pSurface) =>
    if SUCCEEDED w.getContainer then
      let p := PresentSwapChain e w.pSwapChain w.present
      if SUCCEEDED p.1 then
        PresentSample.finish
          { e with m_SurfaceRepaint := some pSurface, m_LastPresentTime := llTarget } p.1 w
          (p.2 ++ [NativeCall.SwapChainRelease w.pSwapChain])
      else
        PresentSample.finish e p.1 w (p.2 ++ [NativeCall.SwapChainRelease w.pSwapChain])
    else PresentSample.finish e w.getContainer w []
  | (hr, none) => PresentSample.finish e hr w (PaintFrameWithGDI e w.getDC1)

/-- The value of `hr` in `PresentSample` when the closing `if (FAILED(hr))` is
reached: the result of the surface extraction when no surface was obtained,
else the result of `GetContainer` when it failed, else the result of
`PresentSwapChain`. -/
def PresentSample.hr (e : EVRPresentEngine) (pSample : Option SampleHandle)
    (w : PresentResponses) : HRESULT :=
  match PresentSample.surface e pSample w with
  | (_, some _) =>
    if SUCCEEDED w.getContainer then (PresentSwapChain e w.pSwapChain w.present).1
    else w.getContainer
  | (hr, none) => hr

/-! ## Snapshot -/

/-- The answers of the native calls of `GetCurrentImage`. -/
structure ImageResponses where
  getDesc : HRESULT
  Desc : D3DSURFACE_DESC
  createOffscreenPlainSurface : HRESULT
  pSurface : SurfaceHandle
  getRenderTargetData : HRESULT
  dib : DibResponses

/-- What `GetCurrentImage` leaves behind: its result, the header behind
`pBih`, and what was stored through `pDib`, `pcbDib` and `pTimeStamp`. -/
structure ImageResult where
  hr : HRESULT
  bih : Option BITMAPINFOHEADER
  pDib : Option TaskMem
  pcbDib : Option Nat
  pTimeStamp : Option Int
  engine : EVRPresentEngine
  trace : List NativeCall

/-- A return of `GetCurrentImage` that has stored nothing. -/
def ImageResult.fail (e : EVRPresentEngine) (pBih : Option BITMAPINFOHEADER) (hr : HRESULT)
    (t : List NativeCall) : ImageResult :=
  { hr := hr, bih := pBih, pDib := none, pcbDib := none, pTimeStamp := none, engine := e, trace := t }

/-- Method `EVRPresentEngine::GetCurrentImage`, the read-back once the format is
accepted: the copy of the cached surface `surf` into a system-memory surface,
`GetDibFromSurface` on that copy, and the timestamp. -/
def GetCurrentImage.readBack (e : EVRPresentEngine) (bih : BITMAPINFOHEADER) (pTimeStamp : Bool)
    (w : ImageResponses) (surf : SurfaceHandle) : Option ImageResult :=
  match e.m_Device with
  | none => none
  | some dev =>
    let t1 : List NativeCall :=
      [NativeCall.CreateOffscreenPlainSurface dev w.Desc.Width w.Desc.Height w.Desc.Format
        w.createOffscreenPlainSurface]
    if FAILED w.createOffscreenPlainSurface then
      some (ImageResult.fail e (some bih) w.createOffscreenPlainSurface t1)
    else
      let t2 : List NativeCall :=
        t1 ++ [NativeCall.GetRenderTargetData dev surf w.pSurface w.getRenderTargetData]
      let t3 : List NativeCall := t2 ++ [NativeCall.SurfaceRelease w.pSurface]
      if SUCCEEDED w.getRenderTargetData then
        match GetDibFromSurface w.Desc bih w.dib with
        | none => none
        | some d =>
          if FAILED d.hr then
            some { hr := d.hr, bih := some d.bih, pDib := d.pDib, pcbDib := d.pcbDib,
                   pTimeStamp := none, engine := e, trace := t3 }
          else
            some { hr := S_OK, bih := some d.bih, pDib := d.pDib, pcbDib := d.pcbDib,
                   pTimeStamp := if pTimeStamp then some e.m_LastPresentTime else none,
                   engine := e, trace := t3 }
      else some (ImageResult.fail e (some bih) w.getRenderTargetData t3)

/-- Method `EVRPresentEngine::GetCurrentImage`; `pBih` is the header behind the
pointer (`none` for a null pointer), and `pDib`, `pcbDib`, `pTimeStamp` tell
whether the pointer is non-null. -/
def GetCurrentImage (e : EVRPresentEngine) (pBih : Option BITMAPINFOHEADER)
    (pDib pcbDib pTimeStamp : Bool) (w : ImageResponses) : Option ImageResult :=
  match pBih with
  | none => some (ImageResult.fail e pBih E_POINTER [])
  | some bih =>
    if !pDib || !pcbDib then some (ImageResult.fail e pBih E_POINTER [])
    else if bih.biSize ≠ sizeof_BITMAPINFOHEADER then some (ImageResult.fail e pBih E_INVALIDARG [])
    else
      match e.m_SurfaceRepaint with
      | none => some (ImageResult.fail e pBih E_FAIL [])
      | some surf =>
        if FAILED w.getDesc then some (ImageResult.fail e pBih w.getDesc [])
        else if w.Desc.Format ≠ D3DFMT_R8G8B8 ∧ w.Desc.Format ≠ D3DFMT_X8R8G8B8 ∧
            w.Desc.Format ≠ D3DFMT_A8R8G8B8 then
          some (ImageResult.fail e pBih E_NOTIMPL [])
        else GetCurrentImage.readBack e bih pTimeStamp w surf

/-! ## Sample pool -/

/-- Modelled from the spec: the constant `PRESENTER_BUFFER_COUNT` is declared
in a header that is not part of the sources at hand; the spec gives the fixed
number of presentation surfaces as 3. -/
def PRESENTER_BUFFER_COUNT : Nat := 3

/-- Method `EVRPresentEngine::ReleaseResources`: the hook `OnReleaseResources` (a
virtual member declared in the absent header, no effect on the members
modelled here), then `m_SurfaceRepaint.Release()`. -/
def ReleaseResources (e : EVRPresentEngine) : EVRPresentEngine × List NativeCall :=
  match e.m_SurfaceRepaint with
  | none => (e, [])
  | some s => ({ e with m_SurfaceRepaint := none }, [NativeCall.SurfaceRelease s])

/-- The answers of the `VideoType` helper in `GetSwapChainPresentParameters`. -/
structure FormatResponses where
  getFrameDimensions : HRESULT
  Width : Nat
  Height : Nat
  getFourCC : HRESULT
  Format : Nat
  dwm : DwmResponses

/-- Method `EVRPresentEngine::GetSwapChainPresentParameters`. -/
def GetSwapChainPresentParameters (e : EVRPresentEngine) (w : FormatResponses) :
    HRESULT × D3DPRESENT_PARAMETERS :=
  match e.m_hwnd with
  | none => (MF_E_INVALIDREQUEST, D3DPRESENT_PARAMETERS.zero)
  | some hwnd =>
    if FAILED w.getFrameDimensions then (S_OK, D3DPRESENT_PARAMETERS.zero)
    else if FAILED w.getFourCC then (S_OK, D3DPRESENT_PARAMETERS.zero)
    else (S_OK, InitPresentParameters w.dwm (some hwnd) w.Width w.Height w.Format)

/-- The answers of the native calls of one turn of the allocation loop. -/
structure SampleResponses where
  createAdditionalSwapChain : HRESULT
  pSwapChain : SwapChainHandle
  getBackBuffer : HRESULT
  pSurface : SurfaceHandle
  colorFill : HRESULT
  mfCreateVideoSampleFromSurface : HRESULT
  pSample : SampleHandle
  insertBack : HRESULT
  setUnknown : HRESULT

/-- Method `EVRPresentEngine::CreateD3DSample`: its result, the sample created and
the back buffer it wraps, and the trace. -/
def CreateD3DSample (dev : DeviceHandle) (w : SampleResponses) :
    HRESULT × Option (SampleHandle × SurfaceHandle) × List NativeCall :=
  if SUCCEEDED w.getBackBuffer then
    let t1 : List NativeCall := [NativeCall.ColorFill dev w.pSurface w.colorFill]
    if SUCCEEDED w.colorFill then
      if SUCCEEDED w.mfCreateVideoSampleFromSurface then
        (w.mfCreateVideoSampleFromSurface, some (w.pSample, w.pSurface),
          t1 ++ [NativeCall.SurfaceRelease w.pSurface])
      else (w.mfCreateVideoSampleFromSurface, none, t1 ++ [NativeCall.SurfaceRelease w.pSurface])
    else (w.colorFill, none, t1 ++ [NativeCall.SurfaceRelease w.pSurface])
  else (w.getBackBuffer, none, [])

/-- One turn of the allocation loop of `CreateVideoSamples`: the result, the
queue and the trace after it.  The queue type `VideoSampleList` is declared in
a header that is not among the sources; as the spec has it, `InsertBack`
appends the sample at the end of the queue, which it does here when it
succeeds, leaving the queue alone when it fails.  The attribute set by
`SetUnknown` is seen through the queue, which holds the same sample object. -/
def CreateVideoSamples.turn (dev : DeviceHandle) (pp : D3DPRESENT_PARAMETERS)
    (w : SampleResponses) (queue : List VideoSample) :
    HRESULT × List VideoSample × List NativeCall :=
  let t0 : List NativeCall :=
    [NativeCall.CreateAdditionalSwapChain dev pp w.createAdditionalSwapChain]
  if SUCCEEDED w.createAdditionalSwapChain then
    match CreateD3DSample dev w with
    | (hr, none, t) => (hr, queue, t0 ++ t ++ [NativeCall.SwapChainRelease w.pSwapChain])
    | (_, some (pVideoSample, pSurface), t) =>
      let tEnd : List NativeCall :=
        [NativeCall.SampleRelease pVideoSample, NativeCall.SwapChainRelease w.pSwapChain]
      if SUCCEEDED w.insertBack then
        if SUCCEEDED w.setUnknown then
          (w.setUnknown,
            queue ++ [{ pSample := pVideoSample, pSurface := pSurface, swapChain := some w.pSwapChain }],
            t0 ++ t ++ tEnd)
        else
          (w.setUnknown,
            queue ++ [{ pSample := pVideoSample, pSurface := pSurface, swapChain := none }],
            t0 ++ t ++ tEnd)
      else (w.insertBack, queue, t0 ++ t ++ tEnd)
  else (w.createAdditionalSwapChain, queue, t0)

/-- The allocation loop of `CreateVideoSamples`, `n` turns from turn `i` on;
`hr` is the result so far.  A turn dereferences `m_Device`. -/
def CreateVideoSamples.loop (m_Device : Option DeviceHandle) (pp : D3DPRESENT_PARAMETERS)
    (samples : Nat → SampleResponses) :
    Nat → Nat → HRESULT → List VideoSample → List NativeCall →
      Option (HRESULT × List VideoSample × List NativeCall)
  | 0, _, hr, queue, t => some (hr, queue, t)
  | n + 1, i, _, queue, t =>
    match m_Device with
    | none => none
    | some dev =>
      let r := CreateVideoSamples.turn dev pp (samples i) queue
      if FAILED r.1 then some (r.1, r.2.1, t ++ r.2.2)
      else CreateVideoSamples.loop m_Device pp samples n (i + 1) r.1 r.2.1 (t ++ r.2.2)

/-- The answers of the native calls of `CreateVideoSamples`;
`onCreateVideoSamples` is the result of the hook `OnCreateVideoSamples`, a
virtual member declared in the absent header. -/
structure VideoSamplesResponses where
  format : FormatResponses
  rcView : RECT
  samples : Nat → SampleResponses
  onCreateVideoSamples : HRESULT

/-- Method `EVRPresentEngine::CreateVideoSamples`; `pFormat` is the media type
(`none` for a null pointer); the second component of the return value is
`videoSampleQueue` afterwards. -/
def CreateVideoSamples (e : EVRPresentEngine) (pFormat : Option Nat)
    (videoSampleQueue : List VideoSample) (w : VideoSamplesResponses) :
    Option (Outcome (HRESULT × List VideoSample)) :=
  match e.m_hwnd with
  | none => some { ret := (MF_E_INVALIDREQUEST, videoSampleQueue), engine := e, trace := [] }
  | some _ =>
    match pFormat with
    | none => some { ret := (MF_E_UNEXPECTED, videoSampleQueue), engine := e, trace := [] }
    | some _ =>
      let rel := ReleaseResources e
      let e1 := rel.1
      let got := GetSwapChainPresentParameters e1 w.format
      if FAILED got.1 then some { ret := (got.1, videoSampleQueue), engine := e1, trace := rel.2 }
      else
        let pp := got.2
        let e2 := (UpdateDestRect e1 w.rcView).2
        match CreateVideoSamples.loop e2.m_Device pp w.samples PRESENTER_BUFFER_COUNT 0 got.1
            videoSampleQueue rel.2 with
        | none => none
        | some r =>
          let hr1 := if SUCCEEDED r.1 then w.onCreateVideoSamples else r.1
          if FAILED hr1 then
            some { ret := (hr1, r.2.1), engine := (ReleaseResources e2).1,
                   trace := r.2.2 ++ (ReleaseResources e2).2 }
          else some { ret := (hr1, r.2.1), engine := e2, trace := r.2.2 }

/-! ## Construction -/

/-- The answers of the native calls of the constructor. -/
structure ConstructResponses where
  direct3DCreate9Ex : HRESULT
  pD3D9 : Nat
  dxva2CreateDirect3DDeviceManager9 : HRESULT
  resetToken : Nat
  pDeviceManager : Nat
  create : CreateDeviceResponses

/-- The members as the constructor's initialiser list leaves them. -/
def initial : EVRPresentEngine :=
  { m_D3D9 := none, m_DeviceManager := none, m_Device := none, m_DeviceResetToken := 0,
    m_hwnd := none, m_rcDestRect := { left := 0, top := 0, right := 0, bottom := 0 },
    m_DisplayMode := { Width := 0, Height := 0, RefreshRate := 0, Format := 0 },
    m_SurfaceRepaint := none, m_LastPresentTime := 0 }

/-- Method `EVRPresentEngine::InitializeD3D`. -/
def InitializeD3D (e : EVRPresentEngine) (w : ConstructResponses) : HRESULT × EVRPresentEngine :=
  if SUCCEEDED w.direct3DCreate9Ex then
    if SUCCEEDED w.dxva2CreateDirect3DDeviceManager9 then
      (w.dxva2CreateDirect3DDeviceManager9,
        { e with m_D3D9 := some w.pD3D9, m_DeviceResetToken := w.resetToken,
                 m_DeviceManager := some w.pDeviceManager })
    else
      (w.dxva2CreateDirect3DDeviceManager9,
        { e with m_D3D9 := some w.pD3D9, m_DeviceManager := none })
  else (w.direct3DCreate9Ex, { e with m_D3D9 := none })

/-- The constructor `EVRPresentEngine::EVRPresentEngine(HRESULT &hr)`. -/
def construct (w : ConstructResponses) : Outcome HRESULT :=
  let i := InitializeD3D initial w
  if SUCCEEDED i.1 then CreateD3DDevice i.2 w.create
  else { ret := i.1, engine := i.2, trace := [] }

/-! ## Call sequences -/

/-- A call of one of the mutating entry points, with the answers of its
native calls. -/
inductive Op where
  | SetVideoWindow (hwnd : Option HWND) (rcView : RECT) (w : CreateDeviceResponses)
  | SetDestinationRect (rcDest : RECT) (rcView : RECT)
  | CreateVideoSamples (pFormat : Option Nat) (videoSampleQueue : List VideoSample)
      (w : VideoSamplesResponses)
  | CheckDeviceState (w : CheckResponses)
  | PresentSample (pSample : Option SampleHandle) (llTarget : Int) (w : PresentResponses)

/-- The engine and the trace after one call; `none` when the call has no
defined result. -/
def step (e : EVRPresentEngine) : Op → Option (EVRPresentEngine × List NativeCall)
  | Op.SetVideoWindow hwnd rcView w =>
    let r := SetVideoWindow e hwnd rcView w
    some (r.engine, r.trace)
  | Op.SetDestinationRect rcDest rcView =>
    let r := SetDestinationRect e rcDest rcView
    some (r.engine, r.trace)
  | Op.CreateVideoSamples pFormat q w =>
    (CreateVideoSamples e pFormat q w).map fun r => (r.engine, r.trace)
  | Op.CheckDeviceState w =>
    (CheckDeviceState e w).map fun r => (r.engine, r.trace)
  | Op.PresentSample pSample llTarget w =>
    let r := PresentSample e pSample llTarget w
    some (r.engine, r.trace)

/-- The engine and the trace after a sequence of calls. -/
def run (e : EVRPresentEngine) : List Op → Option (EVRPresentEngine × List NativeCall)
  | [] => some (e, [])
  | op :: ops =>
    match step e op with
    | none => none
    | some (e1, t1) =>
      match run e1 ops with
      | none => none
      | some (e2, t2) => some (e2, t1 ++ t2)

end EVRPresentEngine

/-! ## Specification-side definitions -/

/-- Follows the spec's words: the bytes per pixel of an accepted format, 3 for
24-bit RGB and 4 for the two 32-bit formats. -/
def specBytesPerPixel (Format : Nat) : Nat :=
  if Format = D3DFMT_R8G8B8 then 3 else 4

/-- Follows the spec's words: the row size `W * B` rounded up to a multiple of
4, which is `W * B + 3` rounded down to a multiple of 4. -/
def specStride (W B : Nat) : Nat := (W * B + 3) / 4 * 4

open EVRPresentEngine

/-- Follows the spec's words: the rectangle `s` lies within the rectangle
`c`. -/
def RECT.within (s c : RECT) : Prop :=
  c.left ≤ s.left ∧ c.top ≤ s.top ∧ s.right ≤ c.right ∧ s.bottom ≤ c.bottom

instance (s c : RECT) : Decidable (s.within c) := by
  unfold RECT.within
  infer_instance

/-! ## Predicates used in the statements -/

/-- A call of `PresentSample` or of `CreateVideoSamples`. -/
def EVRPresentEngine.Op.isPresentOrRecreate : Op → Bool
  | Op.PresentSample _ _ _ => true
  | Op.CreateVideoSamples _ _ _ => true
  | _ => false

/-- A native `Present` of a swap chain that returned a success code. -/
def NativeCall.isPresentOk : NativeCall → Bool
  | NativeCall.SwapChainPresent _ _ _ hr => SUCCEEDED hr
  | _ => false

/-- A native `CreateDeviceEx`. -/
def NativeCall.isCreateDeviceEx : NativeCall → Bool
  | NativeCall.CreateDeviceEx _ _ _ _ _ => true
  | _ => false

/-! ## Turns of the allocation loop, as the statements speak of them -/

/-- Every native call of one turn of the allocation loop succeeds. -/
def EVRPresentEngine.SampleResponses.ok (w : SampleResponses) : Bool :=
  SUCCEEDED w.createAdditionalSwapChain && SUCCEEDED w.getBackBuffer && SUCCEEDED w.colorFill &&
    SUCCEEDED w.mfCreateVideoSampleFromSurface && SUCCEEDED w.insertBack && SUCCEEDED w.setUnknown

/-- The queue entry of a turn whose native calls all succeed: the sample
created in the turn, bound to the swap chain created in the turn. -/
def EVRPresentEngine.SampleResponses.sample (w : SampleResponses) : VideoSample :=
  { pSample := w.pSample, pSurface := w.pSurface, swapChain := some w.pSwapChain }

/-- The result of the first native call of a turn that fails, in the order
the turn issues them: swap-chain creation, the three calls that wrap the back
buffer into a sample, queue insertion, attribute binding. -/
def EVRPresentEngine.SampleResponses.firstFailure (w : SampleResponses) : Option HRESULT :=
  if FAILED w.createAdditionalSwapChain then some w.createAdditionalSwapChain
  else if FAILED w.getBackBuffer then some w.getBackBuffer
  else if FAILED w.colorFill then some w.colorFill
  else if FAILED w.mfCreateVideoSampleFromSurface then some w.mfCreateVideoSampleFromSurface
  else if FAILED w.insertBack then some w.insertBack
  else if FAILED w.setUnknown then some w.setUnknown
  else none

/-- What a failing turn has added to the queue: the sample without its
swap-chain attribute when the call that failed is the attribute binding,
nothing when an earlier call failed. -/
def EVRPresentEngine.SampleResponses.leftover (w : SampleResponses) : List VideoSample :=
  if SUCCEEDED w.createAdditionalSwapChain && SUCCEEDED w.getBackBuffer && SUCCEEDED w.colorFill &&
      SUCCEEDED w.mfCreateVideoSampleFromSurface && SUCCEEDED w.insertBack && FAILED w.setUnknown
  then [{ pSample := w.pSample, pSurface := w.pSurface, swapChain := none }]
  else []

/-! ## Sample inputs -/

/-- An engine holding device 7 and, in its repaint cache, surface 5 presented
at time 99. -/
def sampleEngine : EVRPresentEngine :=
  { initial with m_D3D9 := some 1, m_DeviceManager := some 2, m_Device := some 7,
                 m_SurfaceRepaint := some 5, m_LastPresentTime := 99 }

/-- A caller's header: the size member set, the other members not cleared. -/
def sampleHeader : BITMAPINFOHEADER :=
  { biSize := 40, biWidth := 1, biHeight := 2, biPlanes := 3, biBitCount := 4, biCompression := 5,
    biSizeImage := 6, biXPelsPerMeter := 7, biYPelsPerMeter := 8, biClrUsed := 9,
    biClrImportant := 10 }

/-- Native answers of a snapshot of a `Width` x `Height` surface of format
`Format`: every call succeeds, the locked rectangle has the given pitch and
holds byte `i % 251` at offset `i`, the allocated block is zero-filled. -/
def sampleImageResponses (Format Width Height : Nat) (Pitch : Int) : ImageResponses :=
  { getDesc := S_OK, Desc := { Format := Format, Width := Width, Height := Height },
    createOffscreenPlainSurface := S_OK, pSurface := 9, getRenderTargetData := S_OK,
    dib := { lockRect := S_OK, Rect := { Pitch := Pitch, pBits := fun i => i % 251 },
             alloc := some (fun _ => 0) } }

/-- The sample engine with window 3 bound and the destination rectangle
`(0, 0, 640, 480)`. -/
def sampleWindowEngine : EVRPresentEngine :=
  { sampleEngine with m_hwnd := some 3,
                      m_rcDestRect := { left := 0, top := 0, right := 640, bottom := 480 } }

/-- Native answers of a `PresentSample` in which every call succeeds: the
sample carries surface 21 of swap chain 31. -/
def samplePresentResponses : PresentResponses :=
  { getBufferByIndex := S_OK, mfGetService := S_OK, pSurface := 21, getContainer := S_OK,
    pSwapChain := 31, present := S_OK, getDC1 := some 41, getDC2 := some 42 }

/-- Native answers of a `CreateD3DDevice` in which every call succeeds: two
adapters on monitors 100 and 101, the window on monitor 101, device 8. -/
def sampleCreateDeviceResponses : CreateDeviceResponses :=
  { hMonitor := some 101, AdapterCount := 2,
    GetAdapterMonitor := fun i => if i = 0 then some 100 else if i = 1 then some 101 else none,
    getDeviceCaps := S_OK, DevCaps := D3DDEVCAPS_HWTRANSFORMANDLIGHT, desktopWindow := some 1,
    dwm := { hDwmLib := true, pDwmIsCompositionEnabled := true, CompositionEnabled := true },
    createDeviceEx := S_OK, pDevice := 8, getAdapterDisplayMode := S_OK,
    DisplayMode := { Width := 1920, Height := 1080, RefreshRate := 60, Format := D3DFMT_X8R8G8B8 },
    resetDevice := S_OK }

/-- Native answers of a construction in which every call succeeds. -/
def sampleConstructResponses : ConstructResponses :=
  { direct3DCreate9Ex := S_OK, pD3D9 := 1, dxva2CreateDirect3DDeviceManager9 := S_OK,
    resetToken := 77, pDeviceManager := 2, create := sampleCreateDeviceResponses }

/-- A call sequence without a successful native present: a window is bound,
a destination rectangle is set, the device state is checked, and a null
sample is presented while the repaint cache is empty. -/
def sampleOpsNoPresent : List Op :=
  [Op.SetVideoWindow (some 3) { left := 0, top := 0, right := 640, bottom := 480 }
      sampleCreateDeviceResponses,
   Op.SetDestinationRect { left := 0, top := 0, right := 800, bottom := 600 }
      { left := 0, top := 0, right := 640, bottom := 480 },
   Op.CheckDeviceState { checkDeviceState := S_OK, create := sampleCreateDeviceResponses },
   Op.PresentSample none 5 samplePresentResponses]

/-- The engine as a construction in which every native call succeeds leaves
it: device 8, no window bound, the repaint cache empty. -/
def sampleFreshEngine : EVRPresentEngine := (construct sampleConstructResponses).engine

/-- Native answers of a `CheckDeviceState` whose probe returns `probe`; a
recreation of the device succeeds and yields device 8. -/
def sampleCheckResponses (probe : HRESULT) : CheckResponses :=
  { checkDeviceState := probe, create := sampleCreateDeviceResponses }

/-- A surface description whose row size does not wrap while the block size
does: a 32-bit surface of width `2^29` and height 2. -/
def sampleWrapDesc : D3DSURFACE_DESC := { Format := D3DFMT_X8R8G8B8, Width := 536870912, Height := 2 }

/-- The engine bound to window 3 with the destination rectangle
`(0, 0, 640, 480)`, holding device 7 and an empty repaint cache. -/
def sampleEmptyWindowEngine : EVRPresentEngine :=
  { sampleWindowEngine with m_SurfaceRepaint := none, m_LastPresentTime := 0 }

/-- Native answers of a turn of the allocation loop in which every call
succeeds: turn `i` yields swap chain `300 + i`, back buffer `200 + i` and
sample `100 + i`. -/
def sampleSampleResponses (i : Nat) : SampleResponses :=
  { createAdditionalSwapChain := S_OK, pSwapChain := 300 + i, getBackBuffer := S_OK,
    pSurface := 200 + i, colorFill := S_OK, mfCreateVideoSampleFromSurface := S_OK,
    pSample := 100 + i, insertBack := S_OK, setUnknown := S_OK }

/-- Native answers of a `CreateVideoSamples` for a 720 x 480 format in which
every call succeeds. -/
def sampleVideoSamplesResponses : VideoSamplesResponses :=
  { format := { getFrameDimensions := S_OK, Width := 720, Height := 480, getFourCC := S_OK,
                Format := D3DFMT_X8R8G8B8,
                dwm := { hDwmLib := true, pDwmIsCompositionEnabled := true,
                         CompositionEnabled := true } },
    rcView := { left := 0, top := 0, right := 640, bottom := 480 },
    samples := sampleSampleResponses, onCreateVideoSamples := S_OK }

/-- Native answers of a `CreateVideoSamples` in which the swap-chain creation
of the second turn fails with `E_FAIL`. -/
def sampleFailingVideoSamplesResponses : VideoSamplesResponses :=
  { sampleVideoSamplesResponses with
    samples := fun i =>
      if i = 1 then { sampleSampleResponses 1 with createAdditionalSwapChain := E_FAIL }
      else sampleSampleResponses i }

/-- Native answers of a `CreateD3DDevice` in which the window is on monitor
102 while the two adapters are on monitors 100 and 101; every other call
would succeed. -/
def sampleNoMatchResponses : CreateDeviceResponses :=
  { sampleCreateDeviceResponses with hMonitor := some 102 }

/-- Native answers of a `CreateD3DDevice` in which the window is on monitor
101 and three adapters are enumerated: adapter 0 on monitor 100, adapter 1
without a monitor, adapter 2 on monitor 101; every other call would
succeed. -/
def sampleStopResponses : CreateDeviceResponses :=
  { sampleCreateDeviceResponses with
    AdapterCount := 3,
    GetAdapterMonitor := fun i => if i = 0 then some 100 else if i = 2 then some 101 else none }

/-! ## Arithmetic of the snapshot copy -/

theorem FAILED_eq_not_SUCCEEDED (hr : HRESULT) : FAILED hr = !SUCCEEDED hr := by
  unfold FAILED SUCCEEDED
  by_cases h : 0 ≤ hr
  · have h2 : ¬ hr < 0 := not_lt.mpr h
    simp [h, h2]
  · have h2 : hr < 0 := not_le.mp h
    simp [h, h2]

theorem FAILED_of_SUCCEEDED {hr : HRESULT} (h : SUCCEEDED hr = true) : FAILED hr = false := by
  rw [FAILED_eq_not_SUCCEEDED, h]; rfl

theorem and_not3 (x : Nat) (hx : x < 4294967296) : x &&& 4294967292 = x / 4 * 4 := by
  apply Nat.eq_of_testBit_eq
  intro i
  have hm : (4294967292 : Nat) = (2 ^ 30 - 1) <<< 2 := by decide
  have hd : x / 4 * 4 = (x >>> 2) <<< 2 := by
    rw [Nat.shiftLeft_eq, Nat.shiftRight_eq_div_pow]
  rw [Nat.testBit_and, hm, hd, Nat.testBit_shiftLeft, Nat.testBit_shiftLeft,
    Nat.testBit_shiftRight, Nat.testBit_two_pow_sub_one]
  by_cases h2 : 2 ≤ i
  · have e : 2 + (i - 2) = i := by omega
    rw [e]
    by_cases h30 : i - 2 < 30
    · simp [h2, h30]
    · have hlt : x < 2 ^ i := by
        have : (2:Nat) ^ 32 ≤ 2 ^ i := Nat.pow_le_pow_right (by decide) (by omega)
        omega
      simp [h2, h30, Nat.testBit_lt_two_pow hlt]
  · simp [h2]

theorem RowStride_eq (Desc : D3DSURFACE_DESC)
    (hW : Desc.Width * BytesPerPixel Desc + 3 < 4294967296) :
    RowStride Desc = specStride Desc.Width (BytesPerPixel Desc) := by
  unfold RowStride specStride UINT_MOD
  have h1 : Desc.Width * BytesPerPixel Desc % 4294967296 = Desc.Width * BytesPerPixel Desc :=
    Nat.mod_eq_of_lt (by omega)
  rw [h1, Nat.mod_eq_of_lt hW]
  exact and_not3 _ hW

theorem row_succ_le (a b S : Nat) (h : a + 1 ≤ b) : a * S + S ≤ b * S := by
  have := Nat.mul_le_mul_right S h
  rw [Nat.add_mul, Nat.one_mul] at this
  exact this

theorem pitch_offset (y pitch : Nat) (h : y * pitch < 4294967296) :
    ((((y : Int) * (pitch : Int)) % ((UINT_MOD : Nat) : Int)).toNat) = y * pitch := by
  unfold UINT_MOD
  have h0 : (0 : Int) ≤ (y : Int) * (pitch : Int) := by positivity
  have h1 : (y : Int) * (pitch : Int) < ((4294967296 : Nat) : Int) := by exact_mod_cast h
  rw [Int.emod_eq_of_lt h0 h1]
  have : ((y : Int) * (pitch : Int)) = ((y * pitch : Nat) : Int) := by push_cast; rfl
  rw [this, Int.toNat_natCast]

/-- The row loop under the no-wrap conditions: it completes, keeps the block
size, fills row `Height - 1 - y'` of the block with source row `y'` for every
row it visits, and leaves every other byte alone. -/
theorem copyRows_spec (Desc : D3DSURFACE_DESC) (Rect : D3DLOCKED_RECT) (pitch : Nat)
    (hpitch : Rect.Pitch = (pitch : Int))
    (hWB : Desc.Width * BytesPerPixel Desc < 4294967296)
    (hle : Desc.Width * BytesPerPixel Desc ≤ RowStride Desc)
    (hPB : RowStride Desc * Desc.Height < 4294967296)
    (hP : (Desc.Height - 1) * pitch < 4294967296) :
    ∀ (n y : Nat) (p : TaskMem), y + n = Desc.Height → p.size = RowStride Desc * Desc.Height →
      ∃ q, copyRows Desc Rect n y p = some q ∧ q.size = p.size ∧
        (∀ y1, y ≤ y1 → y1 < Desc.Height → ∀ x, x < Desc.Width * BytesPerPixel Desc →
          q.bytes ((Desc.Height - 1 - y1) * RowStride Desc + x) = Rect.pBits (y1 * pitch + x)) ∧
        (∀ i, (∀ y1, y ≤ y1 → y1 < Desc.Height →
            ¬ ((Desc.Height - 1 - y1) * RowStride Desc ≤ i ∧
               i < (Desc.Height - 1 - y1) * RowStride Desc + Desc.Width * BytesPerPixel Desc)) →
          q.bytes i = p.bytes i) := by
  intro n
  induction n with
  | zero =>
    intro y p hy _
    refine ⟨p, rfl, rfl, ?_, ?_⟩
    · intro y1 h1 h2; omega
    · intro i _; rfl
  | succ n ih =>
    intro y p hy hsz
    have hyH : y < Desc.Height := by omega
    -- the three 32-bit expressions do not wrap
    have hrow : (Desc.Height - 1 - y) * RowStride Desc + RowStride Desc
        ≤ RowStride Desc * Desc.Height := by
      have := row_succ_le (Desc.Height - 1 - y) Desc.Height (RowStride Desc) (by omega)
      rw [Nat.mul_comm (RowStride Desc)]; exact this
    have hoff : (Desc.Height - 1 - y) * RowStride Desc % UINT_MOD
        = (Desc.Height - 1 - y) * RowStride Desc := by
      unfold UINT_MOD
      exact Nat.mod_eq_of_lt (by omega)
    have hyp : y * pitch < 4294967296 := by
      have : y * pitch ≤ (Desc.Height - 1) * pitch := Nat.mul_le_mul_right _ (by omega)
      omega
    have hsrc := pitch_offset y pitch hyp
    have hn : Desc.Width * BytesPerPixel Desc % UINT_MOD = Desc.Width * BytesPerPixel Desc := by
      unfold UINT_MOD
      exact Nat.mod_eq_of_lt hWB
    have hfit : (Desc.Height - 1 - y) * RowStride Desc + Desc.Width * BytesPerPixel Desc
        ≤ p.size := by omega
    obtain ⟨q, hq, hqs, hrows, hrest⟩ :=
      ih (y + 1)
        { size := p.size
          bytes := fun i =>
            if (Desc.Height - 1 - y) * RowStride Desc ≤ i ∧
                i < (Desc.Height - 1 - y) * RowStride Desc + Desc.Width * BytesPerPixel Desc
            then Rect.pBits (y * pitch + (i - (Desc.Height - 1 - y) * RowStride Desc))
            else p.bytes i }
        (by omega) hsz
    refine ⟨q, ?_, hqs, ?_, ?_⟩
    · simp only [copyRows, hpitch, hoff, hsrc, hn, CopyMemory, hfit, if_true]
      exact hq
    · intro y1 h1 h2 x hx
      by_cases hy1 : y1 = y
      · subst hy1
        rw [hrest]
        · have hc : (Desc.Height - 1 - y1) * RowStride Desc ≤
              (Desc.Height - 1 - y1) * RowStride Desc + x ∧
              (Desc.Height - 1 - y1) * RowStride Desc + x <
              (Desc.Height - 1 - y1) * RowStride Desc + Desc.Width * BytesPerPixel Desc := by
            omega
          simp only [hc, and_self, if_true]
          congr 1
          omega
        · intro y2 h3 h4
          have := row_succ_le (Desc.Height - 1 - y2) (Desc.Height - 1 - y1) (RowStride Desc)
            (by omega)
          omega
      · exact hrows y1 (by omega) h2 x hx
    · intro i hi
      rw [hrest i (fun y1 h1 h2 => hi y1 (by omega) h2)]
      have := hi y (le_refl y) hyH
      simp only [this, if_false]

theorem specStride_ge (W B : Nat) : W * B ≤ specStride W B := by
  unfold specStride
  omega

/-- Under the no-wrap conditions the row loop of a snapshot completes and the
block holds the source rows in reverse order. -/
theorem copyRows_reversed (Desc : D3DSURFACE_DESC) (Rect : D3DLOCKED_RECT) (pitch : Nat)
    (g : Nat → Nat) (hpitch : Rect.Pitch = (pitch : Int))
    (hW : Desc.Width * specBytesPerPixel Desc.Format + 3 < 4294967296)
    (hH : specStride Desc.Width (specBytesPerPixel Desc.Format) * Desc.Height < 4294967296)
    (hP : (Desc.Height - 1) * pitch < 4294967296) :
    ∃ q, copyRows Desc Rect Desc.Height 0 { size := PixelBytes Desc, bytes := g } = some q ∧
      q.size = specStride Desc.Width (specBytesPerPixel Desc.Format) * Desc.Height ∧
      PixelBytes Desc = specStride Desc.Width (specBytesPerPixel Desc.Format) * Desc.Height ∧
      ∀ y x, y < Desc.Height → x < Desc.Width * specBytesPerPixel Desc.Format →
        q.get? ((Desc.Height - 1 - y) * specStride Desc.Width (specBytesPerPixel Desc.Format) + x)
          = some (Rect.pBits (y * pitch + x)) := by
  have hB : BytesPerPixel Desc = specBytesPerPixel Desc.Format := rfl
  have hS : RowStride Desc = specStride Desc.Width (specBytesPerPixel Desc.Format) := by
    rw [← hB]; exact RowStride_eq Desc (by rw [hB]; exact hW)
  have hPB : PixelBytes Desc = specStride Desc.Width (specBytesPerPixel Desc.Format) * Desc.Height := by
    unfold PixelBytes UINT_MOD
    rw [hS]
    exact Nat.mod_eq_of_lt hH
  have hge := specStride_ge Desc.Width (specBytesPerPixel Desc.Format)
  obtain ⟨q, hq, hqs, hrows, -⟩ :=
    copyRows_spec Desc Rect pitch hpitch (by rw [hB]; omega) (by rw [hB, hS]; exact hge)
      (by rw [hS]; exact hH) hP Desc.Height 0 { size := PixelBytes Desc, bytes := g }
      (by omega) (by rw [hS]; exact hPB)
  refine ⟨q, hq, by rw [hqs]; exact hPB, hPB, ?_⟩
  intro y x hy hx
  have hin : (Desc.Height - 1 - y) * specStride Desc.Width (specBytesPerPixel Desc.Format) + x
      < q.size := by
    rw [hqs]
    show _ < PixelBytes Desc
    rw [hPB]
    have h1 := row_succ_le (Desc.Height - 1 - y) Desc.Height
      (specStride Desc.Width (specBytesPerPixel Desc.Format)) (by omega)
    rw [Nat.mul_comm Desc.Height] at h1
    omega
  unfold TaskMem.get?
  rw [if_pos hin, ← hS, hrows y (Nat.zero_le y) hy x (by rw [hB]; exact hx)]

/-- While the block has `RowStride * Height` bytes and the two products stay
below `2^32`, every copy of the row loop stays inside the block, whatever the
source pitch: the loop completes and keeps the block size. -/
theorem copyRows_total (Desc : D3DSURFACE_DESC) (Rect : D3DLOCKED_RECT)
    (hWB : Desc.Width * BytesPerPixel Desc < 4294967296)
    (hle : Desc.Width * BytesPerPixel Desc ≤ RowStride Desc)
    (hPB : RowStride Desc * Desc.Height < 4294967296) :
    ∀ (n y : Nat) (p : TaskMem), y + n = Desc.Height → p.size = RowStride Desc * Desc.Height →
      ∃ q, copyRows Desc Rect n y p = some q ∧ q.size = p.size := by
  intro n
  induction n with
  | zero => intro y p _ _; exact ⟨p, rfl, rfl⟩
  | succ n ih =>
    intro y p hy hsz
    have hrow : (Desc.Height - 1 - y) * RowStride Desc + RowStride Desc
        ≤ RowStride Desc * Desc.Height := by
      have := row_succ_le (Desc.Height - 1 - y) Desc.Height (RowStride Desc) (by omega)
      rw [Nat.mul_comm (RowStride Desc)]; exact this
    have hoff : (Desc.Height - 1 - y) * RowStride Desc % UINT_MOD
        = (Desc.Height - 1 - y) * RowStride Desc := by
      unfold UINT_MOD
      exact Nat.mod_eq_of_lt (by omega)
    have hn : Desc.Width * BytesPerPixel Desc % UINT_MOD = Desc.Width * BytesPerPixel Desc := by
      unfold UINT_MOD
      exact Nat.mod_eq_of_lt hWB
    have hfit : (Desc.Height - 1 - y) * RowStride Desc + Desc.Width * BytesPerPixel Desc
        ≤ p.size := by omega
    simp only [copyRows, hoff, hn, CopyMemory, hfit, if_true]
    exact ih (y + 1) _ (by omega) hsz

/-! ## Success of a snapshot -/

/-- A snapshot call with valid arguments, a cached surface of an accepted
format, a device, succeeding native calls and a row loop that completes
returns `S_OK` with the block the loop produced. -/
theorem GetCurrentImage_ok (e : EVRPresentEngine) (bih : BITMAPINFOHEADER) (pTimeStamp : Bool)
    (w : ImageResponses) (surf : SurfaceHandle) (dev : DeviceHandle) (g : Nat → Nat) (q : TaskMem)
    (hsize : bih.biSize = sizeof_BITMAPINFOHEADER)
    (hcache : e.m_SurfaceRepaint = some surf) (hdev : e.m_Device = some dev)
    (hdesc : SUCCEEDED w.getDesc = true)
    (hfmt : w.Desc.Format = D3DFMT_R8G8B8 ∨ w.Desc.Format = D3DFMT_X8R8G8B8 ∨
      w.Desc.Format = D3DFMT_A8R8G8B8)
    (hoff : SUCCEEDED w.createOffscreenPlainSurface = true)
    (hrt : SUCCEEDED w.getRenderTargetData = true)
    (hlock : SUCCEEDED w.dib.lockRect = true) (halloc : w.dib.alloc = some g)
    (hcopy : copyRows w.Desc w.dib.Rect w.Desc.Height 0
      { size := PixelBytes w.Desc, bytes := g } = some q) :
    ∃ r, GetCurrentImage e (some bih) true true pTimeStamp w = some r ∧ r.hr = S_OK ∧
      r.pDib = some q ∧ r.pcbDib = some (PixelBytes w.Desc) ∧
      r.bih.map (fun h => h.biSizeImage) = some (PixelBytes w.Desc) ∧
      r.pTimeStamp = (if pTimeStamp then some e.m_LastPresentTime else none) ∧
      r.engine = e := by
  have hz : ∃ z, zeroHeaderTail bih = some z := by
    unfold zeroHeaderTail
    rw [hsize]
    simp [sizeof_BITMAPINFOHEADER]
  obtain ⟨z, hz⟩ := hz
  have hnot : ¬ (w.Desc.Format ≠ D3DFMT_R8G8B8 ∧ w.Desc.Format ≠ D3DFMT_X8R8G8B8 ∧
      w.Desc.Format ≠ D3DFMT_A8R8G8B8) := by
    rcases hfmt with h | h | h <;> simp [h]
  have hd : GetDibFromSurface w.Desc bih w.dib = some
      { hr := w.dib.lockRect
        bih := { z with biWidth := w.Desc.Width % UINT_MOD
                        biHeight := w.Desc.Height % UINT_MOD
                        biPlanes := 1
                        biBitCount := BytesPerPixel w.Desc * 8
                        biSizeImage := PixelBytes w.Desc }
        pDib := some q, pcbDib := some (PixelBytes w.Desc) } := by
    simp only [GetDibFromSurface, FAILED_of_SUCCEEDED hlock, halloc, hz, hcopy]
    rfl
  have hg : GetCurrentImage e (some bih) true true pTimeStamp w = some
      { hr := S_OK
        bih := some { z with biWidth := w.Desc.Width % UINT_MOD
                             biHeight := w.Desc.Height % UINT_MOD
                             biPlanes := 1
                             biBitCount := BytesPerPixel w.Desc * 8
                             biSizeImage := PixelBytes w.Desc }
        pDib := some q, pcbDib := some (PixelBytes w.Desc)
        pTimeStamp := if pTimeStamp then some e.m_LastPresentTime else none
        engine := e
        trace := [NativeCall.CreateOffscreenPlainSurface dev w.Desc.Width w.Desc.Height
            w.Desc.Format w.createOffscreenPlainSurface] ++
          [NativeCall.GetRenderTargetData dev surf w.pSurface w.getRenderTargetData] ++
          [NativeCall.SurfaceRelease w.pSurface] } := by
    simp only [GetCurrentImage, GetCurrentImage.readBack, hsize, hcache, hdev,
      FAILED_of_SUCCEEDED hdesc, hnot,
      FAILED_of_SUCCEEDED hoff, hrt, hd, FAILED_of_SUCCEEDED hlock]
    simp
  exact ⟨_, hg, rfl, rfl, rfl, rfl, rfl, rfl⟩

/-! ## C1, C2: the snapshot block -/

theorem pixel_offset_lt (W B p k : Nat) (hp : p < W) (hk : k < B) : p * B + k < W * B := by
  have := Nat.mul_le_mul_right B (Nat.succ_le_of_lt hp)
  rw [Nat.succ_mul] at this
  omega

/-- C1 (amended): when none of the 32-bit products of `GetDibFromSurface`
wraps (`W*B + 3`, `stride*H` and the source offsets `y*pitch` stay below
`2^32`), a snapshot of a cached surface of an accepted format whose native
calls succeed returns `S_OK` and a block that is the source with its rows
reversed: `out[(H-1-y)*stride + x] = src[y*pitch + x]` for every row `y < H`
and byte offset `x < W*B`, `stride` being `W*B` rounded up to a multiple of 4;
a surface filled with one colour gives that colour at every pixel of every
row. -/
theorem GetCurrentImage_rows_reversed (e : EVRPresentEngine) (bih : BITMAPINFOHEADER)
    (pTimeStamp : Bool) (w : ImageResponses) (surf : SurfaceHandle) (dev : DeviceHandle)
    (g : Nat → Nat) (pitch : Nat)
    (hsize : bih.biSize = sizeof_BITMAPINFOHEADER)
    (hcache : e.m_SurfaceRepaint = some surf) (hdev : e.m_Device = some dev)
    (hdesc : SUCCEEDED w.getDesc = true)
    (hfmt : w.Desc.Format = D3DFMT_R8G8B8 ∨ w.Desc.Format = D3DFMT_X8R8G8B8 ∨
      w.Desc.Format = D3DFMT_A8R8G8B8)
    (hoff : SUCCEEDED w.createOffscreenPlainSurface = true)
    (hrt : SUCCEEDED w.getRenderTargetData = true)
    (hlock : SUCCEEDED w.dib.lockRect = true) (halloc : w.dib.alloc = some g)
    (hpitch : w.dib.Rect.Pitch = (pitch : Int))
    (hW : w.Desc.Width * specBytesPerPixel w.Desc.Format + 3 < 4294967296)
    (hH : specStride w.Desc.Width (specBytesPerPixel w.Desc.Format) * w.Desc.Height < 4294967296)
    (hP : (w.Desc.Height - 1) * pitch < 4294967296) :
    ∃ r out, GetCurrentImage e (some bih) true true pTimeStamp w = some r ∧ r.hr = S_OK ∧
      r.pDib = some out ∧
      (∀ y x, y < w.Desc.Height → x < w.Desc.Width * specBytesPerPixel w.Desc.Format →
        out.get? ((w.Desc.Height - 1 - y) *
            specStride w.Desc.Width (specBytesPerPixel w.Desc.Format) + x)
          = some (w.dib.Rect.pBits (y * pitch + x))) ∧
      (∀ colour : Nat → Nat,
        (∀ y p k, y < w.Desc.Height → p < w.Desc.Width → k < specBytesPerPixel w.Desc.Format →
          w.dib.Rect.pBits (y * pitch + (p * specBytesPerPixel w.Desc.Format + k)) = colour k) →
        ∀ row p k, row < w.Desc.Height → p < w.Desc.Width →
          k < specBytesPerPixel w.Desc.Format →
          out.get? (row * specStride w.Desc.Width (specBytesPerPixel w.Desc.Format) +
              (p * specBytesPerPixel w.Desc.Format + k)) = some (colour k)) := by
  obtain ⟨q, hq, -, -, hrows⟩ := copyRows_reversed w.Desc w.dib.Rect pitch g hpitch hW hH hP
  obtain ⟨r, hr, hok, hdib, -⟩ :=
    GetCurrentImage_ok e bih pTimeStamp w surf dev g q hsize hcache hdev hdesc hfmt hoff hrt
      hlock halloc hq
  refine ⟨r, q, hr, hok, hdib, hrows, ?_⟩
  intro colour hsolid row p k hrow hp hk
  have hx := pixel_offset_lt _ _ p k hp hk
  have h := hrows (w.Desc.Height - 1 - row) _ (by omega) hx
  have hidx : w.Desc.Height - 1 - (w.Desc.Height - 1 - row) = row := by omega
  rw [hidx] at h
  rw [h, hsolid (w.Desc.Height - 1 - row) p k (by omega) hp hk]

/-- C1, witness: a 2 x 2 surface of 24-bit RGB with pitch 8. -/
theorem GetCurrentImage_rows_reversed_witness :
    ∃ r out, GetCurrentImage sampleEngine (some sampleHeader) true true true
        (sampleImageResponses D3DFMT_R8G8B8 2 2 8) = some r ∧ r.hr = S_OK ∧
      r.pDib = some out ∧
      (∀ y x, y < 2 → x < 2 * 3 →
        out.get? ((2 - 1 - y) * specStride 2 3 + x) =
          some ((sampleImageResponses D3DFMT_R8G8B8 2 2 8).dib.Rect.pBits (y * 8 + x))) :=
  have h := GetCurrentImage_rows_reversed sampleEngine sampleHeader true
    (sampleImageResponses D3DFMT_R8G8B8 2 2 8) 5 7 (fun _ => 0) 8 (by decide) rfl rfl (by decide)
    (Or.inl rfl) (by decide) (by decide) (by decide) rfl rfl (by decide) (by decide) (by decide)
  match h with
  | ⟨r, out, h1, h2, h3, h4, _⟩ => ⟨r, out, h1, h2, h3, h4⟩

/-- C1, counterexample: for a 32-bit surface of width `2^30 + 1` and height 1
the product `Width * 4` wraps to 4; the snapshot succeeds with a block of 4
bytes, so the byte the claim places at offset 4 of row 0 is not in the block
returned. -/
theorem GetCurrentImage_rows_reversed_counterexample :
    ∃ r out, GetCurrentImage sampleEngine (some sampleHeader) true true true
        (sampleImageResponses D3DFMT_A8R8G8B8 1073741825 1 4) = some r ∧ r.hr = S_OK ∧
      r.pDib = some out ∧
      ∃ y x, y < 1 ∧ x < 1073741825 * 4 ∧
        out.get? ((1 - 1 - y) * specStride 1073741825 4 + x) ≠
          some ((sampleImageResponses D3DFMT_A8R8G8B8 1073741825 1 4).dib.Rect.pBits (y * 4 + x)) :=
  ⟨_, _, rfl, rfl, rfl, 0, 4, by decide, by decide, by decide⟩

/-- C2 (amended): when neither 32-bit product wraps (`W*bpp + 3` and
`stride*H` stay below `2^32`), a snapshot of a cached surface of an accepted
format whose native calls succeed returns `S_OK` and the byte size
`stride(W,bpp) * H`, where `stride(W,bpp)` is `W*bpp + 3` rounded down to a
multiple of 4 and `bpp` is 3 for 24-bit RGB and 4 for the two 32-bit formats;
the header's image-size member receives the same value. -/
theorem GetCurrentImage_byte_size (e : EVRPresentEngine) (bih : BITMAPINFOHEADER)
    (pTimeStamp : Bool) (w : ImageResponses) (surf : SurfaceHandle) (dev : DeviceHandle)
    (g : Nat → Nat)
    (hsize : bih.biSize = sizeof_BITMAPINFOHEADER)
    (hcache : e.m_SurfaceRepaint = some surf) (hdev : e.m_Device = some dev)
    (hdesc : SUCCEEDED w.getDesc = true)
    (hfmt : w.Desc.Format = D3DFMT_R8G8B8 ∨ w.Desc.Format = D3DFMT_X8R8G8B8 ∨
      w.Desc.Format = D3DFMT_A8R8G8B8)
    (hoff : SUCCEEDED w.createOffscreenPlainSurface = true)
    (hrt : SUCCEEDED w.getRenderTargetData = true)
    (hlock : SUCCEEDED w.dib.lockRect = true) (halloc : w.dib.alloc = some g)
    (hW : w.Desc.Width * specBytesPerPixel w.Desc.Format + 3 < 4294967296)
    (hH : specStride w.Desc.Width (specBytesPerPixel w.Desc.Format) * w.Desc.Height < 4294967296) :
    ∃ r, GetCurrentImage e (some bih) true true pTimeStamp w = some r ∧ r.hr = S_OK ∧
      r.pcbDib = some (specStride w.Desc.Width (specBytesPerPixel w.Desc.Format) * w.Desc.Height) ∧
      r.bih.map (fun h => h.biSizeImage) =
        some (specStride w.Desc.Width (specBytesPerPixel w.Desc.Format) * w.Desc.Height) ∧
      specBytesPerPixel D3DFMT_R8G8B8 = 3 ∧ specBytesPerPixel D3DFMT_X8R8G8B8 = 4 ∧
      specBytesPerPixel D3DFMT_A8R8G8B8 = 4 := by
  have hB : BytesPerPixel w.Desc = specBytesPerPixel w.Desc.Format := rfl
  have hS : RowStride w.Desc = specStride w.Desc.Width (specBytesPerPixel w.Desc.Format) := by
    rw [← hB]; exact RowStride_eq w.Desc (by rw [hB]; exact hW)
  have hPB : PixelBytes w.Desc =
      specStride w.Desc.Width (specBytesPerPixel w.Desc.Format) * w.Desc.Height := by
    unfold PixelBytes UINT_MOD
    rw [hS]
    exact Nat.mod_eq_of_lt hH
  have hge := specStride_ge w.Desc.Width (specBytesPerPixel w.Desc.Format)
  obtain ⟨q, hq, -⟩ :=
    copyRows_total w.Desc w.dib.Rect (by rw [hB]; omega) (by rw [hB, hS]; exact hge)
      (by rw [hS]; exact hH) w.Desc.Height 0 { size := PixelBytes w.Desc, bytes := g }
      (by omega) (by rw [hS]; exact hPB)
  obtain ⟨r, hr, hok, -, hcb, hbi, -⟩ :=
    GetCurrentImage_ok e bih pTimeStamp w surf dev g q hsize hcache hdev hdesc hfmt hoff hrt
      hlock halloc hq
  exact ⟨r, hr, hok, by rw [hcb, hPB], by rw [hbi, hPB], rfl, rfl, rfl⟩

/-- C2, witness: a 3 x 2 surface of 24-bit RGB: stride 12, 24 bytes. -/
theorem GetCurrentImage_byte_size_witness :
    ∃ r, GetCurrentImage sampleEngine (some sampleHeader) true true true
        (sampleImageResponses D3DFMT_R8G8B8 3 2 12) = some r ∧ r.hr = S_OK ∧
      r.pcbDib = some 24 ∧ r.bih.map (fun h => h.biSizeImage) = some 24 :=
  have h := GetCurrentImage_byte_size sampleEngine sampleHeader true
    (sampleImageResponses D3DFMT_R8G8B8 3 2 12) 5 7 (fun _ => 0) (by decide) rfl rfl (by decide)
    (Or.inl rfl) (by decide) (by decide) (by decide) rfl (by decide) (by decide)
  match h with
  | ⟨r, h1, h2, h3, h4, _⟩ => ⟨r, h1, h2, h3, h4⟩

/-- C2, counterexample: for a 32-bit RGB surface of width `2^30 + 1` and
height 1 the snapshot succeeds and returns the byte size 4, not
`stride(W,4) * H = 2^32 + 4`. -/
theorem GetCurrentImage_byte_size_counterexample :
    ∃ r, GetCurrentImage sampleEngine (some sampleHeader) true true true
        (sampleImageResponses D3DFMT_X8R8G8B8 1073741825 1 4) = some r ∧ r.hr = S_OK ∧
      r.pcbDib = some 4 ∧ r.bih.map (fun h => h.biSizeImage) = some 4 ∧
      specStride 1073741825 (specBytesPerPixel D3DFMT_X8R8G8B8) * 1 = 4294967300 :=
  ⟨_, rfl, rfl, rfl, rfl, by decide⟩

/-! ## C3: the timestamp of a snapshot -/

theorem PaintFrameWithGDI_no_present (e : EVRPresentEngine) (hdc : Option HDC) :
    (PaintFrameWithGDI e hdc).any NativeCall.isPresentOk = false := by
  cases hdc <;> rfl

theorem PresentSample_finish_engine (e : EVRPresentEngine) (hr : HRESULT) (w : PresentResponses)
    (t : List NativeCall) : (PresentSample.finish e hr w t).engine = e := by
  unfold PresentSample.finish
  split <;> [split; skip] <;> rfl

theorem PresentSample_finish_trace (e : EVRPresentEngine) (hr : HRESULT) (w : PresentResponses)
    (t : List NativeCall) :
    (PresentSample.finish e hr w t).trace.any NativeCall.isPresentOk
      = t.any NativeCall.isPresentOk := by
  unfold PresentSample.finish
  split <;> [split; skip] <;> simp [List.any_append, PaintFrameWithGDI_no_present]

/-- The engine after `PresentSample`: the repaint cache is replaced exactly
when the trace has a native present that succeeded. -/
theorem PresentSample_engine (e : EVRPresentEngine) (pSample : Option SampleHandle)
    (llTarget : Int) (w : PresentResponses) :
    ((PresentSample e pSample llTarget w).trace.any NativeCall.isPresentOk = true ∧
      ∃ surf, (PresentSample.surface e pSample w).2 = some surf ∧
        (PresentSample e pSample llTarget w).engine =
          { e with m_SurfaceRepaint := some surf, m_LastPresentTime := llTarget }) ∨
    ((PresentSample e pSample llTarget w).trace.any NativeCall.isPresentOk = false ∧
      (PresentSample e pSample llTarget w).engine = e) := by
  unfold PresentSample
  rcases hsf : PresentSample.surface e pSample w with ⟨h0, _ | surf⟩
  · right
    simp only [PresentSample_finish_engine, PresentSample_finish_trace,
      PaintFrameWithGDI_no_present, and_self]
  · by_cases hg : SUCCEEDED w.getContainer = true
    · simp only [hg, if_true]
      unfold PresentSwapChain
      cases hw : e.m_hwnd with
      | none =>
        right
        have : SUCCEEDED MF_E_INVALIDREQUEST = false := by decide
        simp [this, PresentSample_finish_engine, PresentSample_finish_trace,
          NativeCall.isPresentOk]
      | some hwnd =>
        by_cases hp : SUCCEEDED w.present = true
        · left
          simp [hp, PresentSample_finish_engine, PresentSample_finish_trace,
            NativeCall.isPresentOk]
        · right
          simp [hp, PresentSample_finish_engine, PresentSample_finish_trace,
            NativeCall.isPresentOk]
    · right
      simp [hg, PresentSample_finish_engine, PresentSample_finish_trace]

theorem UpdateDestRect_frame (e : EVRPresentEngine) (rcView : RECT) :
    (UpdateDestRect e rcView).2.m_SurfaceRepaint = e.m_SurfaceRepaint ∧
    (UpdateDestRect e rcView).2.m_LastPresentTime = e.m_LastPresentTime ∧
    (UpdateDestRect e rcView).2.m_hwnd = e.m_hwnd ∧
    (UpdateDestRect e rcView).2.m_Device = e.m_Device ∧
    (UpdateDestRect e rcView).2.m_D3D9 = e.m_D3D9 ∧
    (UpdateDestRect e rcView).2.m_DeviceManager = e.m_DeviceManager := by
  unfold UpdateDestRect
  split <;> simp

theorem CreateD3DDevice_attach_frame (e : EVRPresentEngine) (w : CreateDeviceResponses)
    (t : List NativeCall) :
    (CreateD3DDevice.attach e w t).engine.m_SurfaceRepaint = e.m_SurfaceRepaint ∧
    (CreateD3DDevice.attach e w t).engine.m_LastPresentTime = e.m_LastPresentTime ∧
    (CreateD3DDevice.attach e w t).engine.m_hwnd = e.m_hwnd ∧
    (CreateD3DDevice.attach e w t).engine.m_rcDestRect = e.m_rcDestRect := by
  unfold CreateD3DDevice.attach
  split <;> [split; skip] <;> simp

theorem CreateD3DDevice_device_frame (e : EVRPresentEngine) (w : CreateDeviceResponses)
    (AdapterID : Nat) :
    (CreateD3DDevice.device e w AdapterID).engine.m_SurfaceRepaint = e.m_SurfaceRepaint ∧
    (CreateD3DDevice.device e w AdapterID).engine.m_LastPresentTime = e.m_LastPresentTime ∧
    (CreateD3DDevice.device e w AdapterID).engine.m_hwnd = e.m_hwnd ∧
    (CreateD3DDevice.device e w AdapterID).engine.m_rcDestRect = e.m_rcDestRect := by
  unfold CreateD3DDevice.device
  split
  · simp
  · simp only
    split
    · simp
    · exact CreateD3DDevice_attach_frame e w _

theorem CreateD3DDevice_frame (e : EVRPresentEngine) (w : CreateDeviceResponses) :
    (CreateD3DDevice e w).engine.m_SurfaceRepaint = e.m_SurfaceRepaint ∧
    (CreateD3DDevice e w).engine.m_LastPresentTime = e.m_LastPresentTime ∧
    (CreateD3DDevice e w).engine.m_hwnd = e.m_hwnd ∧
    (CreateD3DDevice e w).engine.m_rcDestRect = e.m_rcDestRect := by
  unfold CreateD3DDevice
  split
  · simp
  · split
    · simp
    · exact CreateD3DDevice_device_frame e w _

theorem attachTrace_no_present (old : Option DeviceHandle) :
    (attachTrace old).any NativeCall.isPresentOk = false := by
  cases old <;> rfl

theorem CreateD3DDevice_attach_no_present (e : EVRPresentEngine) (w : CreateDeviceResponses)
    (t : List NativeCall) (ht : t.any NativeCall.isPresentOk = false) :
    (CreateD3DDevice.attach e w t).trace.any NativeCall.isPresentOk = false := by
  unfold CreateD3DDevice.attach
  split <;> [split; skip] <;>
    simp [List.any_append, ht, attachTrace_no_present, NativeCall.isPresentOk]

theorem CreateD3DDevice_no_present (e : EVRPresentEngine) (w : CreateDeviceResponses) :
    (CreateD3DDevice e w).trace.any NativeCall.isPresentOk = false := by
  unfold CreateD3DDevice
  split
  · rfl
  · split
    · rfl
    · unfold CreateD3DDevice.device
      split
      · rfl
      · simp only
        split
        · simp [NativeCall.isPresentOk]
        · exact CreateD3DDevice_attach_no_present e w _ (by simp [NativeCall.isPresentOk])

theorem SetVideoWindow_frame (e : EVRPresentEngine) (hwnd : Option HWND) (rcView : RECT)
    (w : CreateDeviceResponses) :
    (SetVideoWindow e hwnd rcView w).engine.m_SurfaceRepaint = e.m_SurfaceRepaint ∧
    (SetVideoWindow e hwnd rcView w).engine.m_LastPresentTime = e.m_LastPresentTime := by
  unfold SetVideoWindow
  have h1 := CreateD3DDevice_frame (UpdateDestRect { e with m_hwnd := hwnd } rcView).2 w
  have h2 := UpdateDestRect_frame { e with m_hwnd := hwnd } rcView
  exact ⟨h1.1.trans h2.1, h1.2.1.trans h2.2.1⟩

theorem SetDestinationRect_frame (e : EVRPresentEngine) (rcDest rcView : RECT) :
    (SetDestinationRect e rcDest rcView).engine.m_SurfaceRepaint = e.m_SurfaceRepaint ∧
    (SetDestinationRect e rcDest rcView).engine.m_LastPresentTime = e.m_LastPresentTime := by
  unfold SetDestinationRect
  split
  · have h2 := UpdateDestRect_frame { e with m_rcDestRect := rcDest } rcView
    exact ⟨h2.1, h2.2.1⟩
  · exact ⟨rfl, rfl⟩

theorem CheckDeviceState_frame (e : EVRPresentEngine) (w : CheckResponses)
    (r : Outcome (HRESULT × DeviceState)) (h : CheckDeviceState e w = some r) :
    r.engine.m_SurfaceRepaint = e.m_SurfaceRepaint ∧
    r.engine.m_LastPresentTime = e.m_LastPresentTime ∧
    r.trace.any NativeCall.isPresentOk = false := by
  unfold CheckDeviceState at h
  have hc := CreateD3DDevice_frame e w.create
  have ht := CreateD3DDevice_no_present e w.create
  cases hd : e.m_Device with
  | none => rw [hd] at h; simp at h
  | some dev =>
    rw [hd] at h
    simp only at h
    repeat' split at h
    all_goals
      simp only [Option.some.injEq] at h
      subst h
      simp [NativeCall.isPresentOk, hc.1, hc.2.1, ht]

theorem step_frame (e e2 : EVRPresentEngine) (op : Op) (tr : List NativeCall)
    (hop : op.isPresentOrRecreate = false) (h : step e op = some (e2, tr)) :
    e2.m_SurfaceRepaint = e.m_SurfaceRepaint ∧ e2.m_LastPresentTime = e.m_LastPresentTime := by
  cases op with
  | SetVideoWindow hwnd rcView w =>
    simp only [step, Option.some.injEq, Prod.mk.injEq] at h
    rw [← h.1]
    exact SetVideoWindow_frame e hwnd rcView w
  | SetDestinationRect rcDest rcView =>
    simp only [step, Option.some.injEq, Prod.mk.injEq] at h
    rw [← h.1]
    exact SetDestinationRect_frame e rcDest rcView
  | CreateVideoSamples pFormat q w => simp [Op.isPresentOrRecreate] at hop
  | CheckDeviceState w =>
    simp only [step, Option.map_eq_some', Prod.mk.injEq] at h
    obtain ⟨r, hr, he, -⟩ := h
    rw [← he]
    exact ⟨(CheckDeviceState_frame e w r hr).1, (CheckDeviceState_frame e w r hr).2.1⟩
  | PresentSample pSample llTarget w => simp [Op.isPresentOrRecreate] at hop

theorem run_frame (ops : List Op) : ∀ (e e2 : EVRPresentEngine) (tr : List NativeCall),
    (∀ op ∈ ops, op.isPresentOrRecreate = false) → run e ops = some (e2, tr) →
    e2.m_SurfaceRepaint = e.m_SurfaceRepaint ∧ e2.m_LastPresentTime = e.m_LastPresentTime := by
  induction ops with
  | nil =>
    intro e e2 tr _ h
    simp only [run, Option.some.injEq, Prod.mk.injEq] at h
    rw [← h.1]
    exact ⟨rfl, rfl⟩
  | cons op ops ih =>
    intro e e2 tr hall h
    unfold run at h
    cases hs : step e op with
    | none => rw [hs] at h; simp at h
    | some p =>
      obtain ⟨e1, t1⟩ := p
      rw [hs] at h
      simp only at h
      cases hr : run e1 ops with
      | none => rw [hr] at h; simp at h
      | some p2 =>
        obtain ⟨e3, t3⟩ := p2
        rw [hr] at h
        simp only [Option.some.injEq, Prod.mk.injEq] at h
        have h1 := step_frame e e1 op t1 (hall op (List.mem_cons_self _ _)) hs
        have h2 := ih e1 e3 t3 (fun o ho => hall o (List.mem_cons_of_mem _ ho)) hr
        rw [← h.1]
        exact ⟨h2.1.trans h1.1, h2.2.trans h1.2⟩

theorem ImageResult_fail_timestamp (e : EVRPresentEngine) (pBih : Option BITMAPINFOHEADER)
    (hr : HRESULT) (t : List NativeCall) (x : Option Int)
    (hs : SUCCEEDED (ImageResult.fail e pBih hr t).hr = true) (hf : SUCCEEDED hr = false) :
    (ImageResult.fail e pBih hr t).pTimeStamp = x := by
  have : (ImageResult.fail e pBih hr t).hr = hr := rfl
  rw [this, hf] at hs
  exact absurd hs (by simp)

theorem SUCCEEDED_of_FAILED {hr : HRESULT} (h : FAILED hr = true) : SUCCEEDED hr = false := by
  rw [FAILED_eq_not_SUCCEEDED] at h
  cases hh : SUCCEEDED hr
  · rfl
  · rw [hh] at h; simp at h

theorem GetCurrentImage_readBack_timestamp (e : EVRPresentEngine) (bih : BITMAPINFOHEADER)
    (pTimeStamp : Bool) (w : ImageResponses) (surf : SurfaceHandle) (r : ImageResult)
    (h : GetCurrentImage.readBack e bih pTimeStamp w surf = some r)
    (hs : SUCCEEDED r.hr = true) :
    r.pTimeStamp = (if pTimeStamp then some e.m_LastPresentTime else none) := by
  unfold GetCurrentImage.readBack at h
  split at h
  · simp at h
  · simp only at h
    split at h
    · rename_i hf
      simp only [Option.some.injEq] at h
      subst h
      exact ImageResult_fail_timestamp _ _ _ _ _ hs (SUCCEEDED_of_FAILED hf)
    · split at h
      · split at h
        · simp at h
        · split at h
          · rename_i hf
            simp only [Option.some.injEq] at h
            subst h
            rw [SUCCEEDED_of_FAILED hf] at hs
            simp at hs
          · simp only [Option.some.injEq] at h
            subst h
            rfl
      · rename_i hf
        simp only [Option.some.injEq] at h
        subst h
        refine ImageResult_fail_timestamp _ _ _ _ _ hs ?_
        cases hh : SUCCEEDED w.getRenderTargetData
        · rfl
        · exact absurd hh hf

/-- A snapshot that returns a success code stores `m_LastPresentTime` through
a non-null `pTimeStamp`. -/
theorem GetCurrentImage_timestamp (e : EVRPresentEngine) (pBih : Option BITMAPINFOHEADER)
    (pDib pcbDib pTimeStamp : Bool) (w : ImageResponses) (r : ImageResult)
    (h : GetCurrentImage e pBih pDib pcbDib pTimeStamp w = some r)
    (hs : SUCCEEDED r.hr = true) :
    r.pTimeStamp = (if pTimeStamp then some e.m_LastPresentTime else none) := by
  unfold GetCurrentImage at h
  split at h
  · simp only [Option.some.injEq] at h
    subst h
    exact ImageResult_fail_timestamp _ _ _ _ _ hs (by decide)
  · split at h
    · simp only [Option.some.injEq] at h
      subst h
      exact ImageResult_fail_timestamp _ _ _ _ _ hs (by decide)
    · split at h
      · simp only [Option.some.injEq] at h
        subst h
        exact ImageResult_fail_timestamp _ _ _ _ _ hs (by decide)
      · split at h
        · simp only [Option.some.injEq] at h
          subst h
          exact ImageResult_fail_timestamp _ _ _ _ _ hs (by decide)
        · split at h
          · rename_i hf
            simp only [Option.some.injEq] at h
            subst h
            exact ImageResult_fail_timestamp _ _ _ _ _ hs (SUCCEEDED_of_FAILED hf)
          · split at h
            · simp only [Option.some.injEq] at h
              subst h
              exact ImageResult_fail_timestamp _ _ _ _ _ hs (by decide)
            · exact GetCurrentImage_readBack_timestamp e _ pTimeStamp w _ r h hs

/-- C3: when the native present issued by `PresentSample(sample, t)` succeeds,
the repaint cache becomes the surface presented (the sample's surface, or for
a null sample the surface already cached) together with `t`; and after any
further calls other than `PresentSample` and `CreateVideoSamples`, a snapshot
that succeeds returns the timestamp `t`. -/
theorem PresentSample_snapshot_timestamp (e : EVRPresentEngine) (pSample : Option SampleHandle)
    (t : Int) (w : PresentResponses)
    (hok : (PresentSample e pSample t w).trace.any NativeCall.isPresentOk = true) :
    (∃ surf, (PresentSample.surface e pSample w).2 = some surf ∧
      (pSample ≠ none → surf = w.pSurface) ∧
      (pSample = none → e.m_SurfaceRepaint = some surf) ∧
      (PresentSample e pSample t w).engine.m_SurfaceRepaint = some surf ∧
      (PresentSample e pSample t w).engine.m_LastPresentTime = t) ∧
    ∀ (ops : List Op) (e2 : EVRPresentEngine) (tr : List NativeCall),
      (∀ op ∈ ops, op.isPresentOrRecreate = false) →
      run (PresentSample e pSample t w).engine ops = some (e2, tr) →
      ∀ (pBih : Option BITMAPINFOHEADER) (pDib pcbDib pTimeStamp : Bool) (wi : ImageResponses)
        (r : ImageResult),
        GetCurrentImage e2 pBih pDib pcbDib pTimeStamp wi = some r → SUCCEEDED r.hr = true →
        r.pTimeStamp = (if pTimeStamp then some t else none) := by
  rcases PresentSample_engine e pSample t w with ⟨-, surf, hsurf, heng⟩ | ⟨hno, -⟩
  · have hcache : (PresentSample e pSample t w).engine.m_SurfaceRepaint = some surf := by
      rw [heng]
    have htime : (PresentSample e pSample t w).engine.m_LastPresentTime = t := by rw [heng]
    refine ⟨⟨surf, hsurf, ?_, ?_, hcache, htime⟩, ?_⟩
    · intro hne
      cases pSample with
      | none => exact absurd rfl hne
      | some s =>
        unfold PresentSample.surface at hsurf
        simp only at hsurf
        split at hsurf
        · split at hsurf <;> simp at hsurf
          exact hsurf.symm
        · simp at hsurf
    · intro hnone
      subst hnone
      unfold PresentSample.surface at hsurf
      simp only at hsurf
      split at hsurf
      · rename_i s hs
        simp only [Option.some.injEq] at hsurf
        rw [hs, hsurf]
      · simp at hsurf
    · intro ops e2 tr hall hrun pBih pDib pcbDib pTimeStamp wi r hr hs
      have hf := run_frame ops _ e2 tr hall hrun
      rw [GetCurrentImage_timestamp e2 pBih pDib pcbDib pTimeStamp wi r hr hs, hf.2, htime]
  · rw [hno] at hok
    exact absurd hok (by simp)

/-- C3, witness: a sample carrying surface 21 is presented at time 1234 on an
engine bound to a window. -/
theorem PresentSample_snapshot_timestamp_witness :
    (PresentSample sampleWindowEngine (some 11) 1234 samplePresentResponses).trace.any
        NativeCall.isPresentOk = true ∧
      ∃ surf, (PresentSample.surface sampleWindowEngine (some 11) samplePresentResponses).2
          = some surf ∧
        ((some 11 : Option SampleHandle) ≠ none → surf = samplePresentResponses.pSurface) ∧
        ((some 11 : Option SampleHandle) = none → sampleWindowEngine.m_SurfaceRepaint = some surf) ∧
        (PresentSample sampleWindowEngine (some 11) 1234
          samplePresentResponses).engine.m_SurfaceRepaint = some surf ∧
        (PresentSample sampleWindowEngine (some 11) 1234
          samplePresentResponses).engine.m_LastPresentTime = 1234 :=
  ⟨by decide,
    (PresentSample_snapshot_timestamp sampleWindowEngine (some 11) 1234 samplePresentResponses
      (by decide)).1⟩

/-! ## C4: no snapshot before a successful present -/

theorem ReleaseResources_cache (e : EVRPresentEngine) :
    (ReleaseResources e).1.m_SurfaceRepaint = none := by
  unfold ReleaseResources
  split
  · assumption
  · rfl

theorem CreateVideoSamples_cache (e : EVRPresentEngine) (pFormat : Option Nat)
    (q : List VideoSample) (w : VideoSamplesResponses) (r : Outcome (HRESULT × List VideoSample))
    (h : CreateVideoSamples e pFormat q w = some r) :
    r.engine.m_SurfaceRepaint = none ∨ r.engine = e := by
  unfold CreateVideoSamples at h
  have h1 := ReleaseResources_cache e
  have h2 := (UpdateDestRect_frame (ReleaseResources e).1 w.rcView).1
  have h3 := ReleaseResources_cache (UpdateDestRect (ReleaseResources e).1 w.rcView).2
  split at h
  · simp only [Option.some.injEq] at h
    subst h; right; rfl
  · split at h
    · simp only [Option.some.injEq] at h
      subst h; right; rfl
    · simp only at h
      split at h
      · simp only [Option.some.injEq] at h
        subst h; left; exact h1
      · split at h
        · simp at h
        · repeat' split at h
          all_goals
            injection h with h
            subst h
            first
            | (left; exact h3)
            | (left; exact h2.trans h1)

theorem step_cache_none (e e1 : EVRPresentEngine) (op : Op) (t1 : List NativeCall)
    (hc : e.m_SurfaceRepaint = none) (h : step e op = some (e1, t1))
    (hno : t1.any NativeCall.isPresentOk = false) : e1.m_SurfaceRepaint = none := by
  cases op with
  | SetVideoWindow hwnd rcView w =>
    exact (step_frame e e1 (Op.SetVideoWindow hwnd rcView w) t1 rfl h).1.trans hc
  | SetDestinationRect rcDest rcView =>
    exact (step_frame e e1 (Op.SetDestinationRect rcDest rcView) t1 rfl h).1.trans hc
  | CreateVideoSamples pFormat q w =>
    simp only [step, Option.map_eq_some', Prod.mk.injEq] at h
    obtain ⟨r, hr, he, -⟩ := h
    rw [← he]
    rcases CreateVideoSamples_cache e pFormat q w r hr with h1 | h1
    · exact h1
    · rw [h1]; exact hc
  | CheckDeviceState w =>
    exact (step_frame e e1 (Op.CheckDeviceState w) t1 rfl h).1.trans hc
  | PresentSample pSample llTarget w =>
    simp only [step, Option.some.injEq, Prod.mk.injEq] at h
    rw [← h.2] at hno
    rw [← h.1]
    rcases PresentSample_engine e pSample llTarget w with ⟨hyes, -⟩ | ⟨-, heng⟩
    · rw [hyes] at hno; simp at hno
    · rw [heng]; exact hc

theorem run_cache_none (ops : List Op) : ∀ (e e2 : EVRPresentEngine) (tr : List NativeCall),
    e.m_SurfaceRepaint = none → run e ops = some (e2, tr) →
    tr.any NativeCall.isPresentOk = false → e2.m_SurfaceRepaint = none := by
  induction ops with
  | nil =>
    intro e e2 tr hc h _
    simp only [run, Option.some.injEq, Prod.mk.injEq] at h
    rw [← h.1]; exact hc
  | cons op ops ih =>
    intro e e2 tr hc h hno
    unfold run at h
    cases hs : step e op with
    | none => rw [hs] at h; simp at h
    | some p =>
      obtain ⟨e1, t1⟩ := p
      rw [hs] at h
      simp only at h
      cases hr : run e1 ops with
      | none => rw [hr] at h; simp at h
      | some p2 =>
        obtain ⟨e3, t3⟩ := p2
        rw [hr] at h
        simp only [Option.some.injEq, Prod.mk.injEq] at h
        rw [← h.2, List.any_append, Bool.or_eq_false_iff] at hno
        rw [← h.1]
        exact ih e1 e3 t3 (step_cache_none e e1 op t1 hc hs hno.1) hr hno.2

theorem construct_cache (w : ConstructResponses) :
    (construct w).engine.m_SurfaceRepaint = none := by
  have hi : (InitializeD3D initial w).2.m_SurfaceRepaint = none := by
    unfold InitializeD3D
    split <;> [split; skip] <;> rfl
  unfold construct
  simp only
  split
  · rw [(CreateD3DDevice_frame _ _).1]
    exact hi
  · exact hi

/-- C4: in every engine state reached from construction by a sequence of
`SetVideoWindow`, `SetDestinationRect`, `CreateVideoSamples`,
`CheckDeviceState` and `PresentSample` calls whose trace has no native present
that succeeded, a snapshot with a correct header size, handed non-null
pointers for the buffer and its size, fails with `E_FAIL` and stores no
buffer, no size and no timestamp; the header is left as it was. -/
theorem GetCurrentImage_before_present (wc : ConstructResponses) (ops : List Op)
    (e : EVRPresentEngine) (tr : List NativeCall)
    (hrun : run (construct wc).engine ops = some (e, tr))
    (hno : tr.any NativeCall.isPresentOk = false)
    (bih : BITMAPINFOHEADER) (hsize : bih.biSize = sizeof_BITMAPINFOHEADER)
    (pTimeStamp : Bool) (wi : ImageResponses) :
    ∃ r, GetCurrentImage e (some bih) true true pTimeStamp wi = some r ∧ r.hr = E_FAIL ∧
      r.pDib = none ∧ r.pcbDib = none ∧ r.pTimeStamp = none ∧ r.bih = some bih ∧
      r.trace = [] ∧ r.engine = e := by
  have hc := run_cache_none ops _ e tr (construct_cache wc) hrun hno
  refine ⟨ImageResult.fail e (some bih) E_FAIL [], ?_, rfl, rfl, rfl, rfl, rfl, rfl, rfl⟩
  simp [GetCurrentImage, hsize, hc]

/-- C4, witness: after construction, binding a window, setting a rectangle,
a health check and the present of a null sample, a snapshot fails. -/
theorem GetCurrentImage_before_present_witness :
    ∃ e tr, run (construct sampleConstructResponses).engine sampleOpsNoPresent = some (e, tr) ∧
      tr.any NativeCall.isPresentOk = false ∧
      ∃ r, GetCurrentImage e (some sampleHeader) true true true
          (sampleImageResponses D3DFMT_X8R8G8B8 2 2 8) = some r ∧ r.hr = E_FAIL :=
  ⟨_, _, rfl, by decide,
    (GetCurrentImage_before_present sampleConstructResponses sampleOpsNoPresent _ _ rfl (by decide)
      sampleHeader (by decide) true (sampleImageResponses D3DFMT_X8R8G8B8 2 2 8)).imp
      (fun _ h => ⟨h.1, h.2.1⟩)⟩

/-! ## C5: unsupported formats -/

/-- C5: for a cached surface whose format, as `GetDesc` reports it, is none of
24-bit RGB, 32-bit RGB with unused alpha and 32-bit ARGB, a snapshot - a call
that has passed the pointer and header-size tests which precede the format
test - fails with `E_NOTIMPL`, stores nothing, issues no native call, and
leaves the engine - the repaint cache and its timestamp included - as it
was. -/
theorem GetCurrentImage_unsupported_format (e : EVRPresentEngine) (bih : BITMAPINFOHEADER)
    (pTimeStamp : Bool) (w : ImageResponses) (surf : SurfaceHandle)
    (hsize : bih.biSize = sizeof_BITMAPINFOHEADER)
    (hcache : e.m_SurfaceRepaint = some surf)
    (hdesc : SUCCEEDED w.getDesc = true)
    (hfmt : w.Desc.Format ≠ D3DFMT_R8G8B8 ∧ w.Desc.Format ≠ D3DFMT_X8R8G8B8 ∧
      w.Desc.Format ≠ D3DFMT_A8R8G8B8) :
    ∃ r, GetCurrentImage e (some bih) true true pTimeStamp w = some r ∧ r.hr = E_NOTIMPL ∧
      r.engine.m_SurfaceRepaint = e.m_SurfaceRepaint ∧
      r.engine.m_LastPresentTime = e.m_LastPresentTime ∧ r.engine = e ∧
      r.pDib = none ∧ r.pcbDib = none ∧ r.pTimeStamp = none ∧ r.bih = some bih ∧ r.trace = [] := by
  refine ⟨ImageResult.fail e (some bih) E_NOTIMPL [], ?_, rfl, rfl, rfl, rfl, rfl, rfl, rfl, rfl,
    rfl⟩
  unfold GetCurrentImage
  simp only [hsize, hcache, FAILED_of_SUCCEEDED hdesc]
  rw [if_pos hfmt]
  simp

/-- C5, witness: the cached surface is 16-bit `D3DFMT_R5G6B5`. -/
theorem GetCurrentImage_unsupported_format_witness :
    ∃ r, GetCurrentImage sampleEngine (some sampleHeader) true true true
        (sampleImageResponses D3DFMT_R5G6B5 2 2 4) = some r ∧ r.hr = E_NOTIMPL ∧
      r.engine.m_SurfaceRepaint = sampleEngine.m_SurfaceRepaint ∧
      r.engine.m_LastPresentTime = sampleEngine.m_LastPresentTime :=
  have h := GetCurrentImage_unsupported_format sampleEngine sampleHeader true
    (sampleImageResponses D3DFMT_R5G6B5 2 2 4) 5 (by decide) rfl (by decide) (by decide)
  match h with
  | ⟨r, h1, h2, h3, h4, _⟩ => ⟨r, h1, h2, h3, h4⟩

/-! ## C6, C7: the destination rectangle -/

theorem UpdateDestRect_rect (e : EVRPresentEngine) (rcView : RECT) (hwnd : HWND)
    (hw : e.m_hwnd = some hwnd) :
    (UpdateDestRect e rcView).2.m_rcDestRect =
      { left := e.m_rcDestRect.left, top := e.m_rcDestRect.top,
        right := min e.m_rcDestRect.right rcView.right,
        bottom := min e.m_rcDestRect.bottom rcView.bottom } := by
  unfold UpdateDestRect
  rw [hw]
  simp only
  by_cases h1 : e.m_rcDestRect.right > rcView.right <;>
    by_cases h2 : e.m_rcDestRect.bottom > rcView.bottom
  · simp [h1, h2, min_eq_right (le_of_lt h1), min_eq_right (le_of_lt h2)]
  · simp [h1, h2, min_eq_right (le_of_lt h1), min_eq_left (not_lt.mp h2)]
  · simp [h1, h2, min_eq_left (not_lt.mp h1), min_eq_right (le_of_lt h2)]
  · simp [h1, h2, min_eq_left (not_lt.mp h1), min_eq_left (not_lt.mp h2)]

theorem SetDestinationRect_rect (e : EVRPresentEngine) (r c : RECT) (hwnd : HWND)
    (hw : e.m_hwnd = some hwnd) (hne : r ≠ e.m_rcDestRect) :
    (SetDestinationRect e r c).engine.m_rcDestRect =
      { left := r.left, top := r.top, right := min r.right c.right,
        bottom := min r.bottom c.bottom } := by
  unfold SetDestinationRect EqualRect
  simp only [hne, decide_False, Bool.not_false, if_true]
  exact UpdateDestRect_rect { e with m_rcDestRect := r } c hwnd hw

/-- C6 (amended): with a window bound whose client rectangle is `c`, a
`SetDestinationRect(r)` with `r` different from the stored rectangle stores
`r` with its right edge replaced by `min(r.right, c.right)` and its bottom
edge by `min(r.bottom, c.bottom)`; the left and top edges are stored as
given.  So the stored rectangle ends no further right or down than `c`, and
it is not `r` when `r` exceeds `c` on the right or at the bottom. -/
theorem SetDestinationRect_clamps (e : EVRPresentEngine) (r c : RECT) (hwnd : HWND)
    (hw : e.m_hwnd = some hwnd) (hne : r ≠ e.m_rcDestRect) :
    (SetDestinationRect e r c).engine.m_rcDestRect.right = min r.right c.right ∧
    (SetDestinationRect e r c).engine.m_rcDestRect.bottom = min r.bottom c.bottom ∧
    (SetDestinationRect e r c).engine.m_rcDestRect.left = r.left ∧
    (SetDestinationRect e r c).engine.m_rcDestRect.top = r.top ∧
    (SetDestinationRect e r c).engine.m_rcDestRect.right ≤ c.right ∧
    (SetDestinationRect e r c).engine.m_rcDestRect.bottom ≤ c.bottom ∧
    (r.right > c.right ∨ r.bottom > c.bottom →
      (SetDestinationRect e r c).engine.m_rcDestRect ≠ r) := by
  rw [SetDestinationRect_rect e r c hwnd hw hne]
  refine ⟨rfl, rfl, rfl, rfl, min_le_right _ _, min_le_right _ _, ?_⟩
  intro hex heq
  have h1 : min r.right c.right = r.right := congrArg RECT.right heq
  have h2 : min r.bottom c.bottom = r.bottom := congrArg RECT.bottom heq
  rcases hex with h | h
  · have := min_le_right r.right c.right
    omega
  · have := min_le_right r.bottom c.bottom
    omega

/-- C6, witness: the rectangle `(0, 0, 800, 600)` on a client area of
640 x 480. -/
theorem SetDestinationRect_clamps_witness :
    (SetDestinationRect sampleWindowEngine { left := 0, top := 0, right := 800, bottom := 600 }
        { left := 0, top := 0, right := 640, bottom := 360 }).engine.m_rcDestRect
      = { left := 0, top := 0, right := 640, bottom := 360 } ∧
    (SetDestinationRect sampleWindowEngine { left := 0, top := 0, right := 800, bottom := 600 }
        { left := 0, top := 0, right := 640, bottom := 360 }).engine.m_rcDestRect.right
      = min 800 640 :=
  ⟨by decide,
    (SetDestinationRect_clamps sampleWindowEngine { left := 0, top := 0, right := 800, bottom := 600 }
      { left := 0, top := 0, right := 640, bottom := 360 } 3 rfl (by decide)).1⟩

/-- C6, counterexample: the rectangle `(-10, -10, 800, 600)` differs from the
stored one and exceeds the client rectangle `(0, 0, 640, 480)`; the stored
rectangle becomes `(-10, -10, 640, 480)`, which does not lie within the client
rectangle. -/
theorem SetDestinationRect_clamps_counterexample :
    (SetDestinationRect sampleWindowEngine { left := -10, top := -10, right := 800, bottom := 600 }
        { left := 0, top := 0, right := 640, bottom := 480 }).engine.m_rcDestRect
      = { left := -10, top := -10, right := 640, bottom := 480 } ∧
    ¬ (SetDestinationRect sampleWindowEngine
        { left := -10, top := -10, right := 800, bottom := 600 }
        { left := 0, top := 0, right := 640, bottom := 480 }).engine.m_rcDestRect.within
        { left := 0, top := 0, right := 640, bottom := 480 } :=
  ⟨by decide, by decide⟩

/-- C7 (amended): with a window bound, a `SetDestinationRect(r)` with `r`
different from the stored rectangle, and a `SetVideoWindow(w)` with a non-null
`w`, leave a stored rectangle whose right and bottom edges do not exceed
those of the client rectangle `c` read during the call; a
`SetDestinationRect` with the rectangle already stored changes nothing and
reads no client rectangle. -/
theorem destination_rect_clamped_on_mutation (e : EVRPresentEngine) (r c : RECT)
    (hwnd hwnd2 : HWND) (w : CreateDeviceResponses)
    (hw : e.m_hwnd = some hwnd) (hne : r ≠ e.m_rcDestRect) :
    ((SetDestinationRect e r c).engine.m_rcDestRect.right ≤ c.right ∧
      (SetDestinationRect e r c).engine.m_rcDestRect.bottom ≤ c.bottom) ∧
    ((SetVideoWindow e (some hwnd2) c w).engine.m_rcDestRect.right ≤ c.right ∧
      (SetVideoWindow e (some hwnd2) c w).engine.m_rcDestRect.bottom ≤ c.bottom) ∧
    (SetDestinationRect e e.m_rcDestRect c).engine = e := by
  refine ⟨?_, ?_, ?_⟩
  · rw [SetDestinationRect_rect e r c hwnd hw hne]
    exact ⟨min_le_right _ _, min_le_right _ _⟩
  · unfold SetVideoWindow
    rw [(CreateD3DDevice_frame _ w).2.2.2,
      UpdateDestRect_rect { e with m_hwnd := some hwnd2 } c hwnd2 rfl]
    exact ⟨min_le_right _ _, min_le_right _ _⟩
  · unfold SetDestinationRect EqualRect
    simp

/-- C7, witness: on the engine bound to window 3 with the rectangle
`(0, 0, 640, 480)` stored, the rectangle `(0, 0, 800, 600)` is set while the
client area is 320 x 240. -/
theorem destination_rect_clamped_on_mutation_witness :
    (SetDestinationRect sampleWindowEngine { left := 0, top := 0, right := 800, bottom := 600 }
        { left := 0, top := 0, right := 320, bottom := 240 }).engine.m_rcDestRect.right ≤ 320 ∧
    (SetDestinationRect sampleWindowEngine { left := 0, top := 0, right := 800, bottom := 600 }
        { left := 0, top := 0, right := 320, bottom := 240 }).engine.m_rcDestRect.bottom ≤ 240 :=
  (destination_rect_clamped_on_mutation sampleWindowEngine
    { left := 0, top := 0, right := 800, bottom := 600 }
    { left := 0, top := 0, right := 320, bottom := 240 } 3 4 sampleCreateDeviceResponses rfl
    (by decide)).1

/-- C7, counterexample: window 3 is bound and `(0, 0, 640, 480)` is stored;
the client area has shrunk to 320 x 240.  `SetDestinationRect` with the stored
rectangle keeps `(0, 0, 640, 480)`, larger than the client rectangle. -/
theorem destination_rect_clamped_on_mutation_counterexample :
    sampleWindowEngine.m_hwnd = some 3 ∧
    (SetDestinationRect sampleWindowEngine { left := 0, top := 0, right := 640, bottom := 480 }
        { left := 0, top := 0, right := 320, bottom := 240 }).engine.m_rcDestRect
      = { left := 0, top := 0, right := 640, bottom := 480 } ∧
    ¬ ((SetDestinationRect sampleWindowEngine { left := 0, top := 0, right := 640, bottom := 480 }
        { left := 0, top := 0, right := 320, bottom := 240 }).engine.m_rcDestRect.right ≤ 320 ∧
      (SetDestinationRect sampleWindowEngine { left := 0, top := 0, right := 640, bottom := 480 }
        { left := 0, top := 0, right := 320, bottom := 240 }).engine.m_rcDestRect.bottom ≤ 240) :=
  ⟨rfl, by decide, by decide⟩

/-! ## C8, C9, C10: the device state -/

theorem FAILED_of_not_SUCCEEDED {hr : HRESULT} (h : ¬ SUCCEEDED hr = true) : FAILED hr = true := by
  rw [FAILED_eq_not_SUCCEEDED]
  cases hh : SUCCEEDED hr
  · rfl
  · exact absurd hh h

/-- The two outcomes of `CreateD3DDevice`: it succeeds, the engine holds the
device `CreateDeviceEx` produced, that call was issued once and the device
held before was released; or it fails, the device held before is still held,
`CreateDeviceEx` was issued at most once and nothing but the device just
produced was released. -/
theorem CreateD3DDevice_cases (e : EVRPresentEngine) (w : CreateDeviceResponses) :
    (SUCCEEDED (CreateD3DDevice e w).ret = true ∧
      (CreateD3DDevice e w).engine.m_Device = some w.pDevice ∧
      ((CreateD3DDevice e w).trace.filter NativeCall.isCreateDeviceEx).length = 1 ∧
      (∀ d, e.m_Device = some d → NativeCall.DeviceRelease d ∈ (CreateD3DDevice e w).trace)) ∨
    (FAILED (CreateD3DDevice e w).ret = true ∧
      (CreateD3DDevice e w).engine.m_Device = e.m_Device ∧
      ((CreateD3DDevice e w).trace.filter NativeCall.isCreateDeviceEx).length ≤ 1 ∧
      (∀ d, NativeCall.DeviceRelease d ∈ (CreateD3DDevice e w).trace → d = w.pDevice)) := by
  unfold CreateD3DDevice
  split
  · right
    have hn : FAILED MF_E_NOT_INITIALIZED = true := by decide
    exact ⟨hn, rfl, by simp, by simp⟩
  · split
    · rename_i hf
      right
      exact ⟨hf, rfl, by simp, by simp⟩
    · unfold CreateD3DDevice.device
      split
      · rename_i hf
        right
        exact ⟨hf, rfl, by simp, by simp⟩
      · simp only
        split
        · rename_i hf
          right
          exact ⟨hf, rfl, by simp [NativeCall.isCreateDeviceEx], by simp⟩
        · unfold CreateD3DDevice.attach
          split
          · simp only
            split
            · rename_i hs
              left
              refine ⟨hs, rfl, ?_, ?_⟩
              · cases e.m_Device <;>
                  simp [List.filter_append, attachTrace, NativeCall.isCreateDeviceEx]
              · intro d hd
                simp [hd, attachTrace]
            · rename_i hs
              right
              exact ⟨FAILED_of_not_SUCCEEDED hs, rfl,
                by simp [List.filter_append, NativeCall.isCreateDeviceEx], by simp⟩
          · rename_i hs
            right
            exact ⟨FAILED_of_not_SUCCEEDED hs, rfl,
              by simp [List.filter_append, NativeCall.isCreateDeviceEx], by simp⟩

theorem CheckDeviceState_eq_of_removed (e : EVRPresentEngine) (dev : DeviceHandle)
    (w : CheckResponses) (hdev : e.m_Device = some dev)
    (hp : w.checkDeviceState = D3DERR_DEVICEREMOVED) :
    CheckDeviceState e w = some
      { ret := (D3DERR_DEVICEREMOVED, DeviceState.Removed), engine := e,
        trace := [NativeCall.CheckDeviceState dev e.m_hwnd D3DERR_DEVICEREMOVED] } := by
  have h1 : ¬ (D3DERR_DEVICEREMOVED = S_OK ∨ D3DERR_DEVICEREMOVED = S_PRESENT_OCCLUDED ∨
      D3DERR_DEVICEREMOVED = S_PRESENT_MODE_CHANGED) := by decide
  have h2 : ¬ (D3DERR_DEVICEREMOVED = D3DERR_DEVICELOST ∨
      D3DERR_DEVICEREMOVED = D3DERR_DEVICEHUNG) := by decide
  unfold CheckDeviceState
  simp only [hdev, hp]
  rw [if_neg h1, if_neg h2]
  simp

theorem CheckDeviceState_eq_of_lost (e : EVRPresentEngine) (dev : DeviceHandle)
    (w : CheckResponses) (hdev : e.m_Device = some dev)
    (hp : w.checkDeviceState = D3DERR_DEVICELOST ∨ w.checkDeviceState = D3DERR_DEVICEHUNG) :
    CheckDeviceState e w = some
      (if FAILED (CreateD3DDevice e w.create).ret then
        { ret := ((CreateD3DDevice e w.create).ret, DeviceState.OK),
          engine := (CreateD3DDevice e w.create).engine,
          trace := [NativeCall.CheckDeviceState dev e.m_hwnd w.checkDeviceState] ++
            (CreateD3DDevice e w.create).trace }
      else
        { ret := (S_OK, DeviceState.Reset), engine := (CreateD3DDevice e w.create).engine,
          trace := [NativeCall.CheckDeviceState dev e.m_hwnd w.checkDeviceState] ++
            (CreateD3DDevice e w.create).trace }) := by
  have h1 : ¬ (w.checkDeviceState = S_OK ∨ w.checkDeviceState = S_PRESENT_OCCLUDED ∨
      w.checkDeviceState = S_PRESENT_MODE_CHANGED) := by
    rcases hp with h | h <;> rw [h] <;> decide
  unfold CheckDeviceState
  simp only [hdev]
  rw [if_neg h1, if_pos hp]
  split <;> rfl

/-- C9: when the probe of `CheckDeviceState` returns `D3DERR_DEVICEREMOVED`,
the state reported is `Removed`, the probe is the only native call issued - no
`CreateDeviceEx`, no release of the device - and the engine, its device handle
included, is the same after the call as before it. -/
theorem CheckDeviceState_reports_removed (e : EVRPresentEngine) (dev : DeviceHandle) (w : CheckResponses)
    (hdev : e.m_Device = some dev) (hp : w.checkDeviceState = D3DERR_DEVICEREMOVED) :
    ∃ r, CheckDeviceState e w = some r ∧ r.ret.2 = DeviceState.Removed ∧
      r.trace = [NativeCall.CheckDeviceState dev e.m_hwnd D3DERR_DEVICEREMOVED] ∧
      r.trace.any NativeCall.isCreateDeviceEx = false ∧
      NativeCall.DeviceRelease dev ∉ r.trace ∧
      r.engine.m_Device = e.m_Device ∧ r.engine = e :=
  ⟨_, CheckDeviceState_eq_of_removed e dev w hdev hp, rfl, rfl, rfl, by simp, rfl, rfl⟩

/-- C9, witness: the probe of a freshly constructed engine returns
device-removed. -/
theorem CheckDeviceState_reports_removed_witness :
    ∃ r, CheckDeviceState sampleFreshEngine (sampleCheckResponses D3DERR_DEVICEREMOVED) = some r ∧
      r.ret.2 = DeviceState.Removed ∧
      r.trace = [NativeCall.CheckDeviceState 8 sampleFreshEngine.m_hwnd D3DERR_DEVICEREMOVED] ∧
      r.trace.any NativeCall.isCreateDeviceEx = false ∧
      NativeCall.DeviceRelease 8 ∉ r.trace ∧
      r.engine.m_Device = sampleFreshEngine.m_Device ∧ r.engine = sampleFreshEngine :=
  CheckDeviceState_reports_removed sampleFreshEngine 8 (sampleCheckResponses D3DERR_DEVICEREMOVED)
    (by decide) rfl

/-- C8 (amended): a `CheckDeviceState` whose probe returns device-removed
reports `Removed` with the failure code `D3DERR_DEVICEREMOVED` and leaves the
engine unchanged; the engine keeps no record of it.  A later
`CheckDeviceState` whose probe again returns device-removed reports `Removed`
again, and a later `PresentSample` does exactly what it would have done
without the health check: in particular it returns `S_OK` for a null sample
while the repaint cache is empty. -/
theorem removed_state_not_recorded (e : EVRPresentEngine) (dev : DeviceHandle)
    (w : CheckResponses) (hdev : e.m_Device = some dev)
    (hp : w.checkDeviceState = D3DERR_DEVICEREMOVED) :
    ∃ r, CheckDeviceState e w = some r ∧
      r.ret = (D3DERR_DEVICEREMOVED, DeviceState.Removed) ∧ r.engine = e ∧
      (∀ w2 : CheckResponses, w2.checkDeviceState = D3DERR_DEVICEREMOVED →
        ∃ r2, CheckDeviceState r.engine w2 = some r2 ∧
          r2.ret = (D3DERR_DEVICEREMOVED, DeviceState.Removed) ∧ r2.engine = e) ∧
      (∀ (pSample : Option SampleHandle) (t : Int) (wp : PresentResponses),
        PresentSample r.engine pSample t wp = PresentSample e pSample t wp) ∧
      (∀ (t : Int) (wp : PresentResponses), e.m_SurfaceRepaint = none →
        (PresentSample r.engine none t wp).ret = S_OK) ∧
      (∀ (pSample : Option SampleHandle) (t : Int) (wp : PresentResponses)
        (surf : SurfaceHandle) (hwnd : HWND),
        (PresentSample.surface e pSample wp).2 = some surf → SUCCEEDED wp.getContainer = true →
        e.m_hwnd = some hwnd → wp.present = D3DERR_DEVICEREMOVED →
        (PresentSample r.engine pSample t wp).ret = D3DERR_DEVICEREMOVED) := by
  refine ⟨_, CheckDeviceState_eq_of_removed e dev w hdev hp, rfl, rfl, ?_, ?_, ?_, ?_⟩
  · intro w2 h2
    exact ⟨_, CheckDeviceState_eq_of_removed e dev w2 hdev h2, rfl, rfl⟩
  · intro pSample t wp
    rfl
  · intro t wp hc
    have hs : PresentSample.surface e none wp = (S_OK, none) := by
      unfold PresentSample.surface
      simp only [hc]
    unfold PresentSample
    simp only [hs]
    unfold PresentSample.finish
    have : FAILED S_OK = false := by decide
    simp only [this]
    rfl
  · intro pSample t wp surf hwnd hsurf hg hw hpr
    have hsf : PresentSample.surface e pSample wp
        = ((PresentSample.surface e pSample wp).1, some surf) := by
      rw [← hsurf]
    have h1 : SUCCEEDED D3DERR_DEVICEREMOVED = false := by decide
    have h2 : FAILED D3DERR_DEVICEREMOVED = true := by decide
    have h3 : ¬ (D3DERR_DEVICEREMOVED = D3DERR_DEVICELOST ∨
        D3DERR_DEVICEREMOVED = D3DERR_DEVICENOTRESET ∨
        D3DERR_DEVICEREMOVED = D3DERR_DEVICEHUNG) := by decide
    unfold PresentSample
    rw [hsf]
    simp only [hg, if_true, PresentSwapChain, hw, hpr, h1, Bool.false_eq_true, if_false]
    unfold PresentSample.finish
    simp only [h2, if_true]
    rw [if_neg h3]

/-- C8, witness: the probe of a freshly constructed engine returns
device-removed; a null sample presented afterwards gives `S_OK`. -/
theorem removed_state_not_recorded_witness :
    ∃ r, CheckDeviceState sampleFreshEngine (sampleCheckResponses D3DERR_DEVICEREMOVED) = some r ∧
      r.ret = (D3DERR_DEVICEREMOVED, DeviceState.Removed) ∧ r.engine = sampleFreshEngine :=
  have h := removed_state_not_recorded sampleFreshEngine 8
    (sampleCheckResponses D3DERR_DEVICEREMOVED) (by decide) rfl
  match h with
  | ⟨r, h1, h2, h3, _⟩ => ⟨r, h1, h2, h3⟩

/-- C8, counterexample: `CheckDeviceState` reports `Removed` on a freshly
constructed engine; the `PresentSample` of a null sample that follows returns
`S_OK`, not the device-removed condition, and a `CheckDeviceState` whose probe
then returns `S_OK` reports `OK`. -/
theorem removed_state_not_recorded_counterexample :
    ∃ r, CheckDeviceState sampleFreshEngine (sampleCheckResponses D3DERR_DEVICEREMOVED) = some r ∧
      r.ret = (D3DERR_DEVICEREMOVED, DeviceState.Removed) ∧
      (PresentSample r.engine none 5 samplePresentResponses).ret = S_OK ∧
      (PresentSample r.engine none 5 samplePresentResponses).ret ≠ D3DERR_DEVICEREMOVED ∧
      (CheckDeviceState r.engine (sampleCheckResponses S_OK)).map (fun r2 => r2.ret)
        = some (S_OK, DeviceState.OK) :=
  ⟨_, rfl, rfl, by decide, by decide, by decide⟩

/-- C10: when the probe of `CheckDeviceState` returns `D3DERR_DEVICELOST` or
`D3DERR_DEVICEHUNG`, `CreateD3DDevice` runs once on the engine.  If it
succeeds, the call returns `S_OK` with state `Reset`, the engine holds the
device `CreateDeviceEx` produced, `CreateDeviceEx` was issued exactly once and
the device held before was released.  If it fails, the call returns that
failure, the engine still holds the device held before, and that device was
not released. -/
theorem CheckDeviceState_lost_or_hung (e : EVRPresentEngine) (dev : DeviceHandle)
    (w : CheckResponses) (hdev : e.m_Device = some dev)
    (hp : w.checkDeviceState = D3DERR_DEVICELOST ∨ w.checkDeviceState = D3DERR_DEVICEHUNG) :
    ∃ r, CheckDeviceState e w = some r ∧
      r.engine = (CreateD3DDevice e w.create).engine ∧
      r.trace = NativeCall.CheckDeviceState dev e.m_hwnd w.checkDeviceState ::
        (CreateD3DDevice e w.create).trace ∧
      (r.trace.filter NativeCall.isCreateDeviceEx).length ≤ 1 ∧
      (SUCCEEDED (CreateD3DDevice e w.create).ret = true →
        r.ret = (S_OK, DeviceState.Reset) ∧ r.engine.m_Device = some w.create.pDevice ∧
        (r.trace.filter NativeCall.isCreateDeviceEx).length = 1 ∧
        NativeCall.DeviceRelease dev ∈ r.trace) ∧
      (FAILED (CreateD3DDevice e w.create).ret = true →
        r.ret.1 = (CreateD3DDevice e w.create).ret ∧ r.engine.m_Device = some dev ∧
        (w.create.pDevice ≠ dev → NativeCall.DeviceRelease dev ∉ r.trace)) := by
  have heq := CheckDeviceState_eq_of_lost e dev w hdev hp
  rcases CreateD3DDevice_cases e w.create with ⟨hs, hd, hn, hrel⟩ | ⟨hf, hd, hn, hrel⟩
  · have hf : FAILED (CreateD3DDevice e w.create).ret = false := FAILED_of_SUCCEEDED hs
    simp only [hf, Bool.false_eq_true, if_false] at heq
    refine ⟨_, heq, rfl, rfl, ?_, ?_, ?_⟩
    · simp [List.filter_cons, NativeCall.isCreateDeviceEx, hn]
    · intro _
      refine ⟨rfl, hd, ?_, ?_⟩
      · simp [List.filter_cons, NativeCall.isCreateDeviceEx, hn]
      · exact List.mem_cons_of_mem _ (hrel dev hdev)
    · intro h
      rw [hf] at h
      exact absurd h (by simp)
  · simp only [hf, if_true] at heq
    refine ⟨_, heq, rfl, rfl, ?_, ?_, ?_⟩
    · simpa [List.filter_cons, NativeCall.isCreateDeviceEx] using hn
    · intro h
      rw [SUCCEEDED_of_FAILED hf] at h
      exact absurd h (by simp)
    · intro _
      refine ⟨rfl, hd.trans hdev, ?_⟩
      intro hne hmem
      rcases List.mem_cons.mp hmem with h | h
      · exact absurd h (by simp)
      · exact hne (hrel dev h).symm

/-- C10, witness: the probe of a freshly constructed engine holding device 8
returns device-lost and the recreation yields device 9. -/
theorem CheckDeviceState_lost_or_hung_witness :
    ∃ r, CheckDeviceState sampleFreshEngine
        { checkDeviceState := D3DERR_DEVICELOST,
          create := { sampleCreateDeviceResponses with pDevice := 9 } } = some r ∧
      r.ret = (S_OK, DeviceState.Reset) ∧ r.engine.m_Device = some 9 ∧
      NativeCall.DeviceRelease 8 ∈ r.trace :=
  have h := CheckDeviceState_lost_or_hung sampleFreshEngine 8
    { checkDeviceState := D3DERR_DEVICELOST,
      create := { sampleCreateDeviceResponses with pDevice := 9 } } (by decide) (Or.inl rfl)
  match h with
  | ⟨r, h1, _, _, _, h5, _⟩ => ⟨r, h1, (h5 (by decide)).1, (h5 (by decide)).2.1, (h5 (by decide)).2.2.2⟩

/-! ## C11: the nominal device states -/

theorem CheckDeviceState_eq_of_nominal (e : EVRPresentEngine) (dev : DeviceHandle)
    (w : CheckResponses) (hdev : e.m_Device = some dev)
    (hp : w.checkDeviceState = S_OK ∨ w.checkDeviceState = S_PRESENT_OCCLUDED ∨
      w.checkDeviceState = S_PRESENT_MODE_CHANGED) :
    CheckDeviceState e w = some
      { ret := (S_OK, DeviceState.OK), engine := e,
        trace := [NativeCall.CheckDeviceState dev e.m_hwnd w.checkDeviceState] } := by
  unfold CheckDeviceState
  simp only [hdev]
  rw [if_pos hp]

/-- C11: when the probe of `CheckDeviceState` returns `S_OK`,
`S_PRESENT_OCCLUDED` or `S_PRESENT_MODE_CHANGED`, the call returns `S_OK` with
state `OK`; the probe is the only native call issued - no `CreateDeviceEx`, no
release of the device - and the engine, its device handle included, is the
same after the call as before it. -/
theorem CheckDeviceState_reports_ok (e : EVRPresentEngine) (dev : DeviceHandle)
    (w : CheckResponses) (hdev : e.m_Device = some dev)
    (hp : w.checkDeviceState = S_OK ∨ w.checkDeviceState = S_PRESENT_OCCLUDED ∨
      w.checkDeviceState = S_PRESENT_MODE_CHANGED) :
    ∃ r, CheckDeviceState e w = some r ∧ r.ret = (S_OK, DeviceState.OK) ∧
      SUCCEEDED r.ret.1 = true ∧
      r.trace = [NativeCall.CheckDeviceState dev e.m_hwnd w.checkDeviceState] ∧
      r.trace.any NativeCall.isCreateDeviceEx = false ∧
      NativeCall.DeviceRelease dev ∉ r.trace ∧
      r.engine.m_Device = e.m_Device ∧ r.engine = e :=
  ⟨_, CheckDeviceState_eq_of_nominal e dev w hdev hp, rfl, rfl, rfl, rfl, by simp, rfl, rfl⟩

/-- C11, witness: the probe of a freshly constructed engine reports an
occluded window. -/
theorem CheckDeviceState_reports_ok_witness :
    ∃ r, CheckDeviceState sampleFreshEngine (sampleCheckResponses S_PRESENT_OCCLUDED) = some r ∧
      r.ret = (S_OK, DeviceState.OK) ∧ r.engine = sampleFreshEngine :=
  have h := CheckDeviceState_reports_ok sampleFreshEngine 8
    (sampleCheckResponses S_PRESENT_OCCLUDED) (by decide) (Or.inr (Or.inl rfl))
  match h with
  | ⟨r, h1, h2, _, _, _, _, _, h8⟩ => ⟨r, h1, h2, h8⟩

/-! ## C18: the row copies stay inside the block -/

theorem BytesPerPixel_cases (Desc : D3DSURFACE_DESC) :
    BytesPerPixel Desc = 3 ∨ BytesPerPixel Desc = 4 := by
  unfold BytesPerPixel
  split
  · exact Or.inl rfl
  · exact Or.inr rfl

/-- C18: in `GetDibFromSurface`, when the 32-bit products do not wrap
(`W*B + 3 < 2^32` and `RowStride*H < 2^32`), `B` is 3 or 4, `RowStride` is a
multiple of 4 with `W*B <= RowStride < W*B + 4`, `PixelBytes` is
`RowStride*H`, every row copy ends inside the block
(`(H-1-y)*RowStride + W*B <= RowStride*H` for every `y < H`), and the row
loop runs to its end on a block of `PixelBytes` bytes.  Without the
precondition the block can be smaller than the extent written: for a 32-bit
surface of width `2^29` and height 2, `PixelBytes` is 0, the first row copy
covers `2^31` bytes from offset `2^31`, and the loop has no defined result. -/
theorem GetDibFromSurface_copies_in_bounds (Desc : D3DSURFACE_DESC) (Rect : D3DLOCKED_RECT)
    (g : Nat → Nat)
    (hW : Desc.Width * BytesPerPixel Desc + 3 < 4294967296)
    (hH : RowStride Desc * Desc.Height < 4294967296) :
    (BytesPerPixel Desc = 3 ∨ BytesPerPixel Desc = 4) ∧
    RowStride Desc % 4 = 0 ∧
    Desc.Width * BytesPerPixel Desc ≤ RowStride Desc ∧
    RowStride Desc < Desc.Width * BytesPerPixel Desc + 4 ∧
    PixelBytes Desc = RowStride Desc * Desc.Height ∧
    (∀ y, y < Desc.Height →
      (Desc.Height - 1 - y) * RowStride Desc + Desc.Width * BytesPerPixel Desc
        ≤ RowStride Desc * Desc.Height) ∧
    (∃ q, copyRows Desc Rect Desc.Height 0 { size := PixelBytes Desc, bytes := g } = some q ∧
      q.size = PixelBytes Desc) ∧
    (PixelBytes sampleWrapDesc = 0 ∧
      sampleWrapDesc.Width * BytesPerPixel sampleWrapDesc + 3 < 4294967296 ∧
      PixelBytes sampleWrapDesc <
        ((sampleWrapDesc.Height - 1 - 0) * RowStride sampleWrapDesc) % UINT_MOD +
          (sampleWrapDesc.Width * BytesPerPixel sampleWrapDesc) % UINT_MOD ∧
      copyRows sampleWrapDesc Rect sampleWrapDesc.Height 0
        { size := PixelBytes sampleWrapDesc, bytes := g } = none) := by
  have hS : RowStride Desc = specStride Desc.Width (BytesPerPixel Desc) := RowStride_eq Desc hW
  have hge : Desc.Width * BytesPerPixel Desc ≤ RowStride Desc := by
    rw [hS]; exact specStride_ge _ _
  have hPB : PixelBytes Desc = RowStride Desc * Desc.Height := by
    unfold PixelBytes UINT_MOD
    exact Nat.mod_eq_of_lt hH
  have hmod : RowStride Desc % 4 = 0 := by
    rw [hS]; unfold specStride; omega
  have hlt : RowStride Desc < Desc.Width * BytesPerPixel Desc + 4 := by
    rw [hS]; unfold specStride; omega
  refine ⟨BytesPerPixel_cases Desc, hmod, hge, hlt, hPB, ?_, ?_, ?_⟩
  · intro y hy
    have h1 := row_succ_le (Desc.Height - 1 - y) Desc.Height (RowStride Desc) (by omega)
    rw [Nat.mul_comm Desc.Height] at h1
    omega
  · obtain ⟨q, hq, hqs⟩ :=
      copyRows_total Desc Rect (by omega) hge hH Desc.Height 0
        { size := PixelBytes Desc, bytes := g } (by omega) hPB
    exact ⟨q, hq, hqs⟩
  · refine ⟨by decide, by decide, by decide, ?_⟩
    have h0 : PixelBytes sampleWrapDesc = 0 := by decide
    have hoff : ((sampleWrapDesc.Height - 1 - 0) * RowStride sampleWrapDesc) % UINT_MOD
        = 2147483648 := by decide
    have hn : (sampleWrapDesc.Width * BytesPerPixel sampleWrapDesc) % UINT_MOD = 2147483648 := by
      decide
    have hH2 : sampleWrapDesc.Height = 1 + 1 := by decide
    rw [hH2]
    simp only [copyRows, CopyMemory]
    rw [hoff, hn, h0]
    simp

/-- C18, witness: a 3 x 2 surface of 24-bit RGB: stride 12, 24 bytes. -/
theorem GetDibFromSurface_copies_in_bounds_witness :
    RowStride { Format := D3DFMT_R8G8B8, Width := 3, Height := 2 } % 4 = 0 ∧
    PixelBytes { Format := D3DFMT_R8G8B8, Width := 3, Height := 2 } =
      RowStride { Format := D3DFMT_R8G8B8, Width := 3, Height := 2 } * 2 ∧
    (∀ y, y < 2 →
      (2 - 1 - y) * RowStride { Format := D3DFMT_R8G8B8, Width := 3, Height := 2 } + 3 * 3
        ≤ RowStride { Format := D3DFMT_R8G8B8, Width := 3, Height := 2 } * 2) :=
  have h := GetDibFromSurface_copies_in_bounds { Format := D3DFMT_R8G8B8, Width := 3, Height := 2 }
    { Pitch := 12, pBits := fun i => i % 251 } (fun _ => 0) (by decide) (by decide)
  ⟨h.2.1, h.2.2.2.2.1, h.2.2.2.2.2.1⟩

/-! ## C12, C13: the result of a present and the fallback paint -/

theorem PresentSample_hr_of_no_surface (e : EVRPresentEngine) (pSample : Option SampleHandle)
    (w : PresentResponses) (h : (PresentSample.surface e pSample w).2 = none) :
    PresentSample.hr e pSample w = (PresentSample.surface e pSample w).1 := by
  unfold PresentSample.hr
  rcases hsf : PresentSample.surface e pSample w with ⟨h0, _ | surf⟩
  · rfl
  · rw [hsf] at h; simp at h

theorem PresentSample_hr_of_surface (e : EVRPresentEngine) (pSample : Option SampleHandle)
    (w : PresentResponses) (surf : SurfaceHandle)
    (h : (PresentSample.surface e pSample w).2 = some surf) :
    PresentSample.hr e pSample w =
      if SUCCEEDED w.getContainer then (PresentSwapChain e w.pSwapChain w.present).1
      else w.getContainer := by
  unfold PresentSample.hr
  rcases hsf : PresentSample.surface e pSample w with ⟨h0, _ | s⟩
  · rw [hsf] at h; simp at h
  · rfl

/-- The shape of `PresentSample`: the closing part applied to the value of
`hr` reached; when that value is a failure the engine handed on is the one
the call started from, and when no surface was obtained the trace handed on
is that of the fallback paint. -/
theorem PresentSample_eq_finish (e : EVRPresentEngine) (pSample : Option SampleHandle)
    (llTarget : Int) (w : PresentResponses) :
    ∃ (e1 : EVRPresentEngine) (t1 : List NativeCall),
      PresentSample e pSample llTarget w
        = PresentSample.finish e1 (PresentSample.hr e pSample w) w t1 ∧
      e1.m_hwnd = e.m_hwnd ∧ e1.m_rcDestRect = e.m_rcDestRect ∧
      (FAILED (PresentSample.hr e pSample w) = true → e1 = e) ∧
      ((PresentSample.surface e pSample w).2 = none → t1 = PaintFrameWithGDI e w.getDC1) := by
  unfold PresentSample PresentSample.hr
  rcases hsf : PresentSample.surface e pSample w with ⟨h0, _ | surf⟩
  · exact ⟨e, _, rfl, rfl, rfl, fun _ => rfl, fun _ => rfl⟩
  · by_cases hg : SUCCEEDED w.getContainer = true
    · simp only [hg, if_true]
      by_cases hp : SUCCEEDED (PresentSwapChain e w.pSwapChain w.present).1 = true
      · simp only [hp, if_true]
        refine ⟨_, _, rfl, rfl, rfl, ?_, ?_⟩
        · intro hf
          rw [SUCCEEDED_of_FAILED hf] at hp
          exact absurd hp (by simp)
        · intro h; simp at h
      · simp only [hp]
        refine ⟨e, _, rfl, rfl, rfl, fun _ => rfl, ?_⟩
        intro h; simp at h
    · simp only [hg]
      refine ⟨e, _, rfl, rfl, rfl, fun _ => rfl, ?_⟩
      intro h; simp at h

/-- C13: when the value of `hr` reached in `PresentSample` - the result of the
surface extraction, of `GetContainer` or of `PresentSwapChain`, whichever
failed - is a failure other than `D3DERR_DEVICELOST`, `D3DERR_DEVICENOTRESET`
and `D3DERR_DEVICEHUNG`, `PresentSample` returns it unchanged and the engine,
the repaint cache and its timestamp included, is as before.  When a surface
was obtained and no window is bound, that value is `MF_E_INVALIDREQUEST`,
and it is returned. -/
theorem PresentSample_propagates_failure (e : EVRPresentEngine) (pSample : Option SampleHandle)
    (llTarget : Int) (w : PresentResponses)
    (hf : FAILED (PresentSample.hr e pSample w) = true)
    (hn : PresentSample.hr e pSample w ≠ D3DERR_DEVICELOST ∧
      PresentSample.hr e pSample w ≠ D3DERR_DEVICENOTRESET ∧
      PresentSample.hr e pSample w ≠ D3DERR_DEVICEHUNG) :
    (PresentSample e pSample llTarget w).ret = PresentSample.hr e pSample w ∧
    (PresentSample e pSample llTarget w).engine.m_SurfaceRepaint = e.m_SurfaceRepaint ∧
    (PresentSample e pSample llTarget w).engine.m_LastPresentTime = e.m_LastPresentTime ∧
    (PresentSample e pSample llTarget w).engine = e ∧
    ((PresentSample.surface e pSample w).2 = none →
      PresentSample.hr e pSample w = (PresentSample.surface e pSample w).1) ∧
    (∀ surf, (PresentSample.surface e pSample w).2 = some surf →
      (SUCCEEDED w.getContainer = false → PresentSample.hr e pSample w = w.getContainer) ∧
      (SUCCEEDED w.getContainer = true → e.m_hwnd = none →
        PresentSample.hr e pSample w = MF_E_INVALIDREQUEST) ∧
      (SUCCEEDED w.getContainer = true → e.m_hwnd ≠ none →
        PresentSample.hr e pSample w = w.present)) := by
  obtain ⟨e1, t1, heq, -, -, he1, -⟩ := PresentSample_eq_finish e pSample llTarget w
  have he := he1 hf
  subst he
  have hnot : ¬ (PresentSample.hr e1 pSample w = D3DERR_DEVICELOST ∨
      PresentSample.hr e1 pSample w = D3DERR_DEVICENOTRESET ∨
      PresentSample.hr e1 pSample w = D3DERR_DEVICEHUNG) := by
    rintro (h | h | h)
    · exact hn.1 h
    · exact hn.2.1 h
    · exact hn.2.2 h
  have hfin : PresentSample.finish e1 (PresentSample.hr e1 pSample w) w t1
      = { ret := PresentSample.hr e1 pSample w, engine := e1, trace := t1 } := by
    unfold PresentSample.finish
    rw [if_pos hf, if_neg hnot]
  rw [heq, hfin]
  refine ⟨rfl, rfl, rfl, rfl, PresentSample_hr_of_no_surface e1 pSample w, ?_⟩
  intro surf hs
  rw [PresentSample_hr_of_surface e1 pSample w surf hs]
  refine ⟨?_, ?_, ?_⟩
  · intro hg; simp [hg]
  · intro hg hw; simp [hg, PresentSwapChain, hw]
  · intro hg hw
    cases hh : e1.m_hwnd with
    | none => exact absurd hh hw
    | some hwnd => simp [hg, PresentSwapChain, hh]

/-- C13, witness: a sample is presented on an engine with no window bound;
`PresentSwapChain` fails with `MF_E_INVALIDREQUEST`. -/
theorem PresentSample_propagates_failure_witness :
    (PresentSample sampleFreshEngine (some 11) 1234 samplePresentResponses).ret
      = MF_E_INVALIDREQUEST ∧
    (PresentSample sampleFreshEngine (some 11) 1234 samplePresentResponses).engine
      = sampleFreshEngine :=
  have h := PresentSample_propagates_failure sampleFreshEngine (some 11) 1234
    samplePresentResponses (by decide) (by decide)
  ⟨h.1.trans (by decide), h.2.2.2.1⟩

theorem PaintFrameWithGDI_mem (e : EVRPresentEngine) (hdc : Option HDC) :
    NativeCall.GetDC e.m_hwnd ∈ PaintFrameWithGDI e hdc ∧
    (∀ h, hdc = some h → NativeCall.FillRect h e.m_rcDestRect ∈ PaintFrameWithGDI e hdc) := by
  unfold PaintFrameWithGDI
  cases hdc with
  | none => simp
  | some h0 =>
    refine ⟨by simp, ?_⟩
    intro h hh
    simp only [Option.some.injEq] at hh
    subst hh
    simp

theorem PresentSample_finish_mem (e : EVRPresentEngine) (hr : HRESULT) (w : PresentResponses)
    (t : List NativeCall) (c : NativeCall) (hc : c ∈ t) :
    c ∈ (PresentSample.finish e hr w t).trace := by
  unfold PresentSample.finish
  split <;> [split; skip]
  · exact List.mem_append_left _ hc
  · exact hc
  · exact hc

theorem PresentSample_finish_recoverable (e : EVRPresentEngine) (hr : HRESULT)
    (w : PresentResponses) (t : List NativeCall)
    (h : hr = D3DERR_DEVICELOST ∨ hr = D3DERR_DEVICENOTRESET ∨ hr = D3DERR_DEVICEHUNG) :
    PresentSample.finish e hr w t
      = { ret := S_OK, engine := e, trace := t ++ PaintFrameWithGDI e w.getDC2 } := by
  have hf : FAILED hr = true := by
    rcases h with h | h | h <;> rw [h] <;> decide
  unfold PresentSample.finish
  rw [if_pos hf, if_pos h]

/-- C12 (amended): in a `PresentSample` in which no surface was obtained, or
in which the value of `hr` reached is `D3DERR_DEVICELOST`,
`D3DERR_DEVICENOTRESET` or `D3DERR_DEVICEHUNG`, `PaintFrameWithGDI` runs at
least once: `GetDC(m_hwnd)` is issued, and the destination rectangle is
filled on the device context it returns when that is not null.  In the
recoverable-error case, and for a null sample while the repaint cache is
empty, `PresentSample` returns `S_OK`. -/
theorem PresentSample_fallback_paint (e : EVRPresentEngine) (pSample : Option SampleHandle)
    (llTarget : Int) (w : PresentResponses)
    (h : (PresentSample.surface e pSample w).2 = none ∨
      (PresentSample.hr e pSample w = D3DERR_DEVICELOST ∨
        PresentSample.hr e pSample w = D3DERR_DEVICENOTRESET ∨
        PresentSample.hr e pSample w = D3DERR_DEVICEHUNG)) :
    NativeCall.GetDC e.m_hwnd ∈ (PresentSample e pSample llTarget w).trace ∧
    ((PresentSample.surface e pSample w).2 = none → ∀ hdc, w.getDC1 = some hdc →
      NativeCall.FillRect hdc e.m_rcDestRect ∈ (PresentSample e pSample llTarget w).trace) ∧
    ((PresentSample.hr e pSample w = D3DERR_DEVICELOST ∨
        PresentSample.hr e pSample w = D3DERR_DEVICENOTRESET ∨
        PresentSample.hr e pSample w = D3DERR_DEVICEHUNG) →
      (∀ hdc, w.getDC2 = some hdc →
        NativeCall.FillRect hdc e.m_rcDestRect ∈ (PresentSample e pSample llTarget w).trace) ∧
      (PresentSample e pSample llTarget w).ret = S_OK) ∧
    (pSample = none → e.m_SurfaceRepaint = none →
      (PresentSample.surface e pSample w).2 = none ∧
      (PresentSample e pSample llTarget w).ret = S_OK) := by
  obtain ⟨e1, t1, heq, hwnd1, hrc1, -, ht1⟩ := PresentSample_eq_finish e pSample llTarget w
  have hpaint1 := PaintFrameWithGDI_mem e w.getDC1
  have hpaint2 := PaintFrameWithGDI_mem e1 w.getDC2
  rw [hwnd1, hrc1] at hpaint2
  have hA : (PresentSample.surface e pSample w).2 = none → ∀ hdc, w.getDC1 = some hdc →
      NativeCall.FillRect hdc e.m_rcDestRect ∈ (PresentSample e pSample llTarget w).trace := by
    intro hs hdc hh
    rw [heq]
    exact PresentSample_finish_mem _ _ _ _ _ (by rw [ht1 hs]; exact hpaint1.2 hdc hh)
  have hB : (PresentSample.hr e pSample w = D3DERR_DEVICELOST ∨
        PresentSample.hr e pSample w = D3DERR_DEVICENOTRESET ∨
        PresentSample.hr e pSample w = D3DERR_DEVICEHUNG) →
      NativeCall.GetDC e.m_hwnd ∈ (PresentSample e pSample llTarget w).trace ∧
      (∀ hdc, w.getDC2 = some hdc →
        NativeCall.FillRect hdc e.m_rcDestRect ∈ (PresentSample e pSample llTarget w).trace) ∧
      (PresentSample e pSample llTarget w).ret = S_OK := by
    intro hr
    rw [heq, PresentSample_finish_recoverable e1 _ w t1 hr]
    exact ⟨List.mem_append_right _ hpaint2.1,
      fun hdc hh => List.mem_append_right _ (hpaint2.2 hdc hh), rfl⟩
  refine ⟨?_, hA, fun hr => (hB hr).2, ?_⟩
  · rcases h with hs | hr
    · rw [heq]
      exact PresentSample_finish_mem _ _ _ _ _ (by rw [ht1 hs]; exact hpaint1.1)
    · exact (hB hr).1
  · intro hnull hcache
    subst hnull
    have hsf : PresentSample.surface e none w = (S_OK, none) := by
      unfold PresentSample.surface
      simp only [hcache]
    have hhr : PresentSample.hr e none w = S_OK := by
      unfold PresentSample.hr
      rw [hsf]
    refine ⟨by rw [hsf], ?_⟩
    rw [heq, hhr]
    unfold PresentSample.finish
    have : FAILED S_OK = false := by decide
    simp only [this]
    rfl

/-- C12, witness: a null sample is presented while window 3 is bound and the
repaint cache is empty; `GetDC` returns the device context 41. -/
theorem PresentSample_fallback_paint_witness :
    NativeCall.GetDC (some 3) ∈
      (PresentSample sampleEmptyWindowEngine none 5 samplePresentResponses).trace ∧
    NativeCall.FillRect 41 { left := 0, top := 0, right := 640, bottom := 480 } ∈
      (PresentSample sampleEmptyWindowEngine none 5 samplePresentResponses).trace ∧
    (PresentSample sampleEmptyWindowEngine none 5 samplePresentResponses).ret = S_OK :=
  have h := PresentSample_fallback_paint sampleEmptyWindowEngine none 5 samplePresentResponses
    (Or.inl (by decide))
  ⟨h.1, h.2.1 (by decide) 41 rfl, (h.2.2.2 rfl rfl).2⟩

/-- C12, counterexample: a null sample is presented while window 3 is bound
and the repaint cache is empty, and `GetDC` returns null: no surface was
obtained, `PresentSample` returns `S_OK`, and the only native call issued is
`GetDC` - the destination rectangle is not filled. -/
theorem PresentSample_fallback_paint_counterexample :
    (PresentSample.surface sampleEmptyWindowEngine none
      { samplePresentResponses with getDC1 := none }).2 = none ∧
    (PresentSample sampleEmptyWindowEngine none 5
      { samplePresentResponses with getDC1 := none }).ret = S_OK ∧
    (PresentSample sampleEmptyWindowEngine none 5
      { samplePresentResponses with getDC1 := none }).trace = [NativeCall.GetDC (some 3)] ∧
    ∀ hdc rc, NativeCall.FillRect hdc rc ∉
      (PresentSample sampleEmptyWindowEngine none 5
        { samplePresentResponses with getDC1 := none }).trace := by
  refine ⟨by decide, by decide, by decide, ?_⟩
  intro hdc rc hmem
  have ht : (PresentSample sampleEmptyWindowEngine none 5
      { samplePresentResponses with getDC1 := none }).trace = [NativeCall.GetDC (some 3)] := by
    decide
  rw [ht] at hmem
  simp at hmem

/-! ## C14, C16, C17: the sample pool -/

theorem SampleResponses_ok_iff (w : SampleResponses) :
    w.ok = true ↔ SUCCEEDED w.createAdditionalSwapChain = true ∧ SUCCEEDED w.getBackBuffer = true ∧
      SUCCEEDED w.colorFill = true ∧ SUCCEEDED w.mfCreateVideoSampleFromSurface = true ∧
      SUCCEEDED w.insertBack = true ∧ SUCCEEDED w.setUnknown = true := by
  unfold SampleResponses.ok
  simp only [Bool.and_eq_true]
  tauto

/-- A turn whose native calls all succeed returns a success code and appends
its sample, bound to its swap chain. -/
theorem CreateVideoSamples_turn_ok (dev : DeviceHandle) (pp : D3DPRESENT_PARAMETERS)
    (w : SampleResponses) (q : List VideoSample) (h : w.ok = true) :
    SUCCEEDED (CreateVideoSamples.turn dev pp w q).1 = true ∧
    (CreateVideoSamples.turn dev pp w q).2.1 = q ++ [w.sample] := by
  obtain ⟨h1, h2, h3, h4, h5, h6⟩ := (SampleResponses_ok_iff w).mp h
  unfold CreateVideoSamples.turn CreateD3DSample SampleResponses.sample
  simp [h1, h2, h3, h4, h5, h6]

/-- A turn with a failing native call returns the result of the first such
call and leaves in the queue what `leftover` describes. -/
theorem CreateVideoSamples_turn_fail (dev : DeviceHandle) (pp : D3DPRESENT_PARAMETERS)
    (w : SampleResponses) (q : List VideoSample) (c : HRESULT)
    (h : w.firstFailure = some c) :
    (CreateVideoSamples.turn dev pp w q).1 = c ∧ FAILED c = true ∧
    (CreateVideoSamples.turn dev pp w q).2.1 = q ++ w.leftover := by
  unfold SampleResponses.firstFailure at h
  unfold CreateVideoSamples.turn CreateD3DSample SampleResponses.leftover
  by_cases h1 : FAILED w.createAdditionalSwapChain = true
  · rw [if_pos h1] at h
    simp only [Option.some.injEq] at h
    subst h
    simp [SUCCEEDED_of_FAILED h1, h1]
  rw [if_neg h1] at h
  have s1 : SUCCEEDED w.createAdditionalSwapChain = true := by
    rw [FAILED_eq_not_SUCCEEDED] at h1; simpa using h1
  by_cases h2 : FAILED w.getBackBuffer = true
  · rw [if_pos h2] at h
    simp only [Option.some.injEq] at h
    subst h
    simp [s1, SUCCEEDED_of_FAILED h2, h2]
  rw [if_neg h2] at h
  have s2 : SUCCEEDED w.getBackBuffer = true := by
    rw [FAILED_eq_not_SUCCEEDED] at h2; simpa using h2
  by_cases h3 : FAILED w.colorFill = true
  · rw [if_pos h3] at h
    simp only [Option.some.injEq] at h
    subst h
    simp [s1, s2, SUCCEEDED_of_FAILED h3, h3]
  rw [if_neg h3] at h
  have s3 : SUCCEEDED w.colorFill = true := by
    rw [FAILED_eq_not_SUCCEEDED] at h3; simpa using h3
  by_cases h4 : FAILED w.mfCreateVideoSampleFromSurface = true
  · rw [if_pos h4] at h
    simp only [Option.some.injEq] at h
    subst h
    simp [s1, s2, s3, SUCCEEDED_of_FAILED h4, h4]
  rw [if_neg h4] at h
  have s4 : SUCCEEDED w.mfCreateVideoSampleFromSurface = true := by
    rw [FAILED_eq_not_SUCCEEDED] at h4; simpa using h4
  by_cases h5 : FAILED w.insertBack = true
  · rw [if_pos h5] at h
    simp only [Option.some.injEq] at h
    subst h
    simp [s1, s2, s3, s4, SUCCEEDED_of_FAILED h5, h5]
  rw [if_neg h5] at h
  have s5 : SUCCEEDED w.insertBack = true := by
    rw [FAILED_eq_not_SUCCEEDED] at h5; simpa using h5
  by_cases h6 : FAILED w.setUnknown = true
  · rw [if_pos h6] at h
    simp only [Option.some.injEq] at h
    subst h
    simp [s1, s2, s3, s4, s5, SUCCEEDED_of_FAILED h6, h6]
  · rw [if_neg h6] at h
    simp at h

theorem range_succ_map_shift (f : Nat → VideoSample) (i n : Nat) :
    (List.range (n + 1)).map (fun k => f (i + k))
      = f i :: (List.range n).map (fun k => f (i + 1 + k)) := by
  rw [List.range_succ_eq_map, List.map_cons, List.map_map]
  congr 1
  apply List.map_congr_left
  intro k _
  show f (i + (k + 1)) = f (i + 1 + k)
  congr 1
  omega

/-- While every turn succeeds the allocation loop runs its `n` turns and
appends their samples in turn order. -/
theorem CreateVideoSamples_loop_ok (dev : DeviceHandle) (pp : D3DPRESENT_PARAMETERS)
    (samples : Nat → SampleResponses) :
    ∀ (n i : Nat) (hr : HRESULT) (q : List VideoSample) (t : List NativeCall),
      (∀ k, k < n → (samples (i + k)).ok = true) →
      ∃ hr1 t1, CreateVideoSamples.loop (some dev) pp samples n i hr q t
          = some (hr1, q ++ (List.range n).map (fun k => (samples (i + k)).sample), t1) ∧
        (n = 0 → hr1 = hr) ∧ (0 < n → SUCCEEDED hr1 = true) := by
  intro n
  induction n with
  | zero =>
    intro i hr q t _
    exact ⟨hr, t, by simp [CreateVideoSamples.loop], fun _ => rfl, fun h => absurd h (by omega)⟩
  | succ n ih =>
    intro i hr q t hok
    have h0 : (samples i).ok = true := by simpa using hok 0 (by omega)
    obtain ⟨hs, hq⟩ := CreateVideoSamples_turn_ok dev pp (samples i) q h0
    have hnf : FAILED (CreateVideoSamples.turn dev pp (samples i) q).1 = false :=
      FAILED_of_SUCCEEDED hs
    obtain ⟨hr1, t1, heq, h1, h2⟩ :=
      ih (i + 1) (CreateVideoSamples.turn dev pp (samples i) q).1
        (CreateVideoSamples.turn dev pp (samples i) q).2.1
        (t ++ (CreateVideoSamples.turn dev pp (samples i) q).2.2)
        (fun k hk => by
          have := hok (k + 1) (by omega)
          rwa [show i + (k + 1) = i + 1 + k by omega] at this)
    refine ⟨hr1, t1, ?_, fun h => absurd h (by omega), ?_⟩
    · unfold CreateVideoSamples.loop
      simp only [hnf, Bool.false_eq_true, if_false]
      rw [heq, hq, range_succ_map_shift (fun j => (samples j).sample) i n]
      simp
    · intro _
      by_cases hn : n = 0
      · rw [h1 hn]; exact hs
      · exact h2 (by omega)

/-- When turn `k` is the first with a failing native call, the allocation
loop stops there: it returns that call's result, and the queue holds the
samples of the turns before `k` and what turn `k` itself had inserted. -/
theorem CreateVideoSamples_loop_fail (dev : DeviceHandle) (pp : D3DPRESENT_PARAMETERS)
    (samples : Nat → SampleResponses) (c : HRESULT) :
    ∀ (n i k : Nat) (hr : HRESULT) (q : List VideoSample) (t : List NativeCall),
      k < n → (∀ j, j < k → (samples (i + j)).ok = true) →
      (samples (i + k)).firstFailure = some c →
      ∃ t1, CreateVideoSamples.loop (some dev) pp samples n i hr q t
          = some (c, q ++ (List.range k).map (fun j => (samples (i + j)).sample) ++
              (samples (i + k)).leftover, t1) := by
  intro n
  induction n with
  | zero => intro i k hr q t hk; omega
  | succ n ih =>
    intro i k hr q t hk hok hfail
    cases k with
    | zero =>
      obtain ⟨h1, h2, h3⟩ := CreateVideoSamples_turn_fail dev pp (samples i) q c hfail
      refine ⟨t ++ (CreateVideoSamples.turn dev pp (samples i) q).2.2, ?_⟩
      unfold CreateVideoSamples.loop
      simp only [h1, h2, if_true, h3]
      simp
    | succ k =>
      have h0 : (samples i).ok = true := by simpa using hok 0 (by omega)
      obtain ⟨hs, hq⟩ := CreateVideoSamples_turn_ok dev pp (samples i) q h0
      have hnf : FAILED (CreateVideoSamples.turn dev pp (samples i) q).1 = false :=
        FAILED_of_SUCCEEDED hs
      obtain ⟨t1, heq⟩ :=
        ih (i + 1) k (CreateVideoSamples.turn dev pp (samples i) q).1
          (CreateVideoSamples.turn dev pp (samples i) q).2.1
          (t ++ (CreateVideoSamples.turn dev pp (samples i) q).2.2) (by omega)
          (fun j hj => by
            have := hok (j + 1) (by omega)
            rwa [show i + (j + 1) = i + 1 + j by omega] at this)
          (by rwa [show i + 1 + k = i + (k + 1) by omega])
      refine ⟨t1, ?_⟩
      unfold CreateVideoSamples.loop
      simp only [hnf, Bool.false_eq_true, if_false]
      rw [heq, hq, range_succ_map_shift (fun j => (samples j).sample) i k,
        show i + 1 + k = i + (k + 1) by omega]
      simp

theorem ReleaseResources_frame (e : EVRPresentEngine) :
    (ReleaseResources e).1.m_hwnd = e.m_hwnd ∧ (ReleaseResources e).1.m_Device = e.m_Device := by
  unfold ReleaseResources
  split <;> exact ⟨rfl, rfl⟩

theorem GetSwapChainPresentParameters_ok (e : EVRPresentEngine) (w : FormatResponses)
    (hwnd : HWND) (hw : e.m_hwnd = some hwnd) : (GetSwapChainPresentParameters e w).1 = S_OK := by
  unfold GetSwapChainPresentParameters
  rw [hw]
  simp only
  split <;> [rfl; split] <;> rfl

/-- With a window bound and a non-null format, `CreateVideoSamples` is its
allocation loop followed by the hook and, on failure, the release: the queue
returned is the one the loop leaves, the result is the loop's failure or else
the hook's result, and the repaint cache is empty afterwards. -/
theorem CreateVideoSamples_of_loop (e : EVRPresentEngine) (hwnd : HWND) (f : Nat)
    (q : List VideoSample) (w : VideoSamplesResponses)
    (r : HRESULT × List VideoSample × List NativeCall) (hw : e.m_hwnd = some hwnd)
    (hloop : CreateVideoSamples.loop e.m_Device
      (GetSwapChainPresentParameters (ReleaseResources e).1 w.format).2 w.samples
      PRESENTER_BUFFER_COUNT 0 S_OK q (ReleaseResources e).2 = some r) :
    ∃ out, CreateVideoSamples e (some f) q w = some out ∧ out.ret.2 = r.2.1 ∧
      out.ret.1 = (if SUCCEEDED r.1 then w.onCreateVideoSamples else r.1) ∧
      out.engine.m_SurfaceRepaint = none ∧ out.engine.m_Device = e.m_Device ∧
      out.engine.m_hwnd = e.m_hwnd := by
  have hrel := ReleaseResources_frame e
  have hw1 : (ReleaseResources e).1.m_hwnd = some hwnd := hrel.1.trans hw
  have hgot := GetSwapChainPresentParameters_ok (ReleaseResources e).1 w.format hwnd hw1
  have hnf : FAILED S_OK = false := by decide
  have hupd := UpdateDestRect_frame (ReleaseResources e).1 w.rcView
  have hdev2 : (UpdateDestRect (ReleaseResources e).1 w.rcView).2.m_Device = e.m_Device :=
    hupd.2.2.2.1.trans hrel.2
  have hcache2 : (UpdateDestRect (ReleaseResources e).1 w.rcView).2.m_SurfaceRepaint = none :=
    hupd.1.trans (ReleaseResources_cache e)
  have hrel2 := ReleaseResources_frame (UpdateDestRect (ReleaseResources e).1 w.rcView).2
  unfold CreateVideoSamples
  simp only [hw, hgot, hnf, Bool.false_eq_true, if_false, hdev2, hloop]
  have hwnd2 : (UpdateDestRect (ReleaseResources e).1 w.rcView).2.m_hwnd = e.m_hwnd :=
    hupd.2.2.1.trans hrel.1
  by_cases hf : FAILED (if SUCCEEDED r.1 then w.onCreateVideoSamples else r.1) = true
  · rw [if_pos hf]
    exact ⟨_, rfl, rfl, rfl, ReleaseResources_cache _, hrel2.2.trans hdev2,
      hrel2.1.trans (hwnd2.trans hw)⟩
  · rw [if_neg hf]
    exact ⟨_, rfl, rfl, rfl, hcache2, hdev2, hwnd2.trans hw⟩

/-- C16: with a window bound, a device, a non-null format and every native
call of every turn succeeding, `CreateVideoSamples` appends exactly
`PRESENTER_BUFFER_COUNT` samples to the queue, in turn order; the sample of
turn `i` is the one created in turn `i`, bound to the swap chain created in
turn `i`; so, the swap chains the device creates being pairwise distinct, no
two samples share a swap chain.  The result is that of the hook
`OnCreateVideoSamples`. -/
theorem CreateVideoSamples_appends_pool (e : EVRPresentEngine) (hwnd : HWND) (dev : DeviceHandle)
    (f : Nat) (q : List VideoSample) (w : VideoSamplesResponses)
    (hw : e.m_hwnd = some hwnd) (hdev : e.m_Device = some dev)
    (hok : ∀ i, i < PRESENTER_BUFFER_COUNT → (w.samples i).ok = true) :
    ∃ r, CreateVideoSamples e (some f) q w = some r ∧
      r.ret.1 = w.onCreateVideoSamples ∧
      r.ret.2 = q ++ (List.range PRESENTER_BUFFER_COUNT).map (fun i => (w.samples i).sample) ∧
      r.ret.2.length = q.length + PRESENTER_BUFFER_COUNT ∧
      (∀ i, i < PRESENTER_BUFFER_COUNT →
        r.ret.2[q.length + i]? = some
          { pSample := (w.samples i).pSample, pSurface := (w.samples i).pSurface,
            swapChain := some (w.samples i).pSwapChain }) ∧
      ((∀ i j, i < PRESENTER_BUFFER_COUNT → j < PRESENTER_BUFFER_COUNT → i ≠ j →
          (w.samples i).pSwapChain ≠ (w.samples j).pSwapChain) →
        (((List.range PRESENTER_BUFFER_COUNT).map (fun i => (w.samples i).sample)).map
          (fun s => s.swapChain)).Nodup) := by
  obtain ⟨hr1, t1, hloop, -, hs⟩ :=
    CreateVideoSamples_loop_ok dev
      (GetSwapChainPresentParameters (ReleaseResources e).1 w.format).2 w.samples
      PRESENTER_BUFFER_COUNT 0 S_OK q (ReleaseResources e).2
      (fun k hk => by simpa using hok k hk)
  simp only [Nat.zero_add] at hloop
  rw [← hdev] at hloop
  obtain ⟨out, hout, hq, hret, -⟩ := CreateVideoSamples_of_loop e hwnd f q w _ hw hloop
  have hpos : 0 < PRESENTER_BUFFER_COUNT := by decide
  refine ⟨out, hout, ?_, hq, ?_, ?_, ?_⟩
  · rw [hret]
    simp only [hs hpos, if_true]
  · rw [hq]
    simp
  · intro i hi
    rw [hq]
    simp only
    rw [List.getElem?_append_right (by omega)]
    simp [hi, SampleResponses.sample]
  · intro hfresh
    rw [List.map_map]
    apply List.Nodup.map_on _ (List.nodup_range _)
    intro i hi j hj hij
    simp only [List.mem_range] at hi hj
    by_contra hne
    apply hfresh i j hi hj hne
    simpa [SampleResponses.sample] using hij

/-- C16, witness: three turns yielding the swap chains 300, 301 and 302. -/
theorem CreateVideoSamples_appends_pool_witness :
    ∃ r, CreateVideoSamples sampleEmptyWindowEngine (some 0) [] sampleVideoSamplesResponses
        = some r ∧
      r.ret.1 = S_OK ∧
      r.ret.2 = [{ pSample := 100, pSurface := 200, swapChain := some 300 },
                 { pSample := 101, pSurface := 201, swapChain := some 301 },
                 { pSample := 102, pSurface := 202, swapChain := some 302 }] :=
  have h := CreateVideoSamples_appends_pool sampleEmptyWindowEngine 3 7 0 []
    sampleVideoSamplesResponses rfl rfl (fun _ _ => rfl)
  match h with
  | ⟨r, h1, h2, h3, _⟩ => ⟨r, h1, h2, h3.trans (by decide)⟩

/-- C14 (amended): with a window bound, a device and a non-null format, when
turn `k` is the first turn of the allocation loop with a failing native call
(swap-chain creation, a call wrapping the back buffer into a sample, queue
insertion or attribute binding), `CreateVideoSamples` returns that call's
failure, and the repaint cache is empty afterwards.  The queue is not
cleared: it holds, after what it held before, the samples of the turns before
`k`, and the sample of turn `k` without its swap-chain attribute when the
failing call is the attribute binding. -/
theorem CreateVideoSamples_failure_keeps_queue (e : EVRPresentEngine) (hwnd : HWND)
    (dev : DeviceHandle) (f : Nat) (q : List VideoSample) (w : VideoSamplesResponses)
    (k : Nat) (c : HRESULT)
    (hw : e.m_hwnd = some hwnd) (hdev : e.m_Device = some dev)
    (hk : k < PRESENTER_BUFFER_COUNT)
    (hok : ∀ j, j < k → (w.samples j).ok = true)
    (hfail : (w.samples k).firstFailure = some c) :
    ∃ r, CreateVideoSamples e (some f) q w = some r ∧
      r.ret.1 = c ∧ FAILED r.ret.1 = true ∧
      r.ret.2 = q ++ (List.range k).map (fun j => (w.samples j).sample) ++
        (w.samples k).leftover ∧
      r.engine.m_SurfaceRepaint = none ∧ r.engine.m_Device = e.m_Device ∧
      r.engine.m_hwnd = e.m_hwnd := by
  obtain ⟨t1, hloop⟩ :=
    CreateVideoSamples_loop_fail dev
      (GetSwapChainPresentParameters (ReleaseResources e).1 w.format).2 w.samples c
      PRESENTER_BUFFER_COUNT 0 k S_OK q (ReleaseResources e).2 hk
      (fun j hj => by simpa using hok j hj) (by simpa using hfail)
  simp only [Nat.zero_add] at hloop
  rw [← hdev] at hloop
  obtain ⟨out, hout, hq, hret, hcache, hd, hwn⟩ :=
    CreateVideoSamples_of_loop e hwnd f q w _ hw hloop
  have hfc : FAILED c = true := by
    unfold SampleResponses.firstFailure at hfail
    repeat' split at hfail
    all_goals first
      | (simp only [Option.some.injEq] at hfail; subst hfail; assumption)
      | simp at hfail
  have hret2 : out.ret.1 = c := by
    rw [hret]
    simp only [SUCCEEDED_of_FAILED hfc, Bool.false_eq_true, if_false]
  exact ⟨out, hout, hret2, by rw [hret2]; exact hfc, hq, hcache, hd, hwn⟩

/-- C14, witness: the swap-chain creation of the second turn fails. -/
theorem CreateVideoSamples_failure_keeps_queue_witness :
    ∃ r, CreateVideoSamples sampleEmptyWindowEngine (some 0) []
        sampleFailingVideoSamplesResponses = some r ∧
      r.ret.1 = E_FAIL ∧ r.engine.m_SurfaceRepaint = none :=
  have h := CreateVideoSamples_failure_keeps_queue sampleEmptyWindowEngine 3 7 0 []
    sampleFailingVideoSamplesResponses 1 E_FAIL rfl rfl (by decide)
    (fun j hj => by
      have : j = 0 := by omega
      subst this
      decide)
    (by decide)
  match h with
  | ⟨r, h1, h2, _, _, h5, _⟩ => ⟨r, h1, h2, h5⟩

/-- C14, counterexample: the first turn succeeds and the swap-chain creation
of the second turn fails with `E_FAIL`; `CreateVideoSamples` returns `E_FAIL`
and the queue, empty before the call, holds the sample created in the first
turn. -/
theorem CreateVideoSamples_failure_keeps_queue_counterexample :
    (CreateVideoSamples sampleEmptyWindowEngine (some 0) []
        sampleFailingVideoSamplesResponses).map (fun r => r.ret)
      = some (E_FAIL, [{ pSample := 100, pSurface := 200, swapChain := some 300 }]) := by
  decide

/-- C17: `CreateVideoSamples` fails with `MF_E_INVALIDREQUEST` when no window
is bound, and with `MF_E_UNEXPECTED` when a window is bound and the format is
null; in both cases no native call is issued, so that nothing is released,
the engine - the repaint cache included - is the same afterwards, and the
queue is as it was. -/
theorem CreateVideoSamples_invalid_state (e : EVRPresentEngine) (pFormat : Option Nat)
    (q : List VideoSample) (w : VideoSamplesResponses)
    (h : e.m_hwnd = none ∨ pFormat = none) :
    ∃ r, CreateVideoSamples e pFormat q w = some r ∧ FAILED r.ret.1 = true ∧
      (r.ret.1 = MF_E_INVALIDREQUEST ∨ r.ret.1 = MF_E_UNEXPECTED) ∧
      (e.m_hwnd = none → r.ret.1 = MF_E_INVALIDREQUEST) ∧
      (e.m_hwnd ≠ none → r.ret.1 = MF_E_UNEXPECTED) ∧
      r.engine = e ∧ r.engine.m_SurfaceRepaint = e.m_SurfaceRepaint ∧
      r.ret.2 = q ∧ r.trace = [] := by
  have h1 : FAILED MF_E_INVALIDREQUEST = true := by decide
  have h2 : FAILED MF_E_UNEXPECTED = true := by decide
  cases hw : e.m_hwnd with
  | none =>
    refine ⟨{ ret := (MF_E_INVALIDREQUEST, q), engine := e, trace := [] }, ?_, h1, Or.inl rfl,
      fun _ => rfl, fun hne => absurd rfl hne, rfl, rfl, rfl, rfl⟩
    unfold CreateVideoSamples
    simp only [hw]
  | some hwnd =>
    have hf : pFormat = none := by
      rcases h with h | h
      · rw [hw] at h; simp at h
      · exact h
    subst hf
    refine ⟨{ ret := (MF_E_UNEXPECTED, q), engine := e, trace := [] }, ?_, h2, Or.inr rfl,
      fun hn => by simp at hn, fun _ => rfl, rfl, rfl, rfl, rfl⟩
    unfold CreateVideoSamples
    simp only [hw]

/-- C17, witness: a null format on an engine bound to a window with a cached
surface. -/
theorem CreateVideoSamples_invalid_state_witness :
    ∃ r, CreateVideoSamples sampleWindowEngine none [] sampleVideoSamplesResponses = some r ∧
      r.ret.1 = MF_E_UNEXPECTED ∧ r.engine = sampleWindowEngine ∧ r.ret.2 = [] ∧ r.trace = [] :=
  have h := CreateVideoSamples_invalid_state sampleWindowEngine none []
    sampleVideoSamplesResponses (Or.inr rfl)
  match h with
  | ⟨r, h1, _, _, _, h5, h6, _, h8, h9⟩ => ⟨r, h1, h5 (by decide), h6, h8, h9⟩

/-! ## C15: the adapter of the device -/

theorem FindAdapter_loop_none (GetAdapterMonitor : Nat → Option HMONITOR)
    (hMonitor : Option HMONITOR) :
    ∀ (n i : Nat), (∀ j, j < n → GetAdapterMonitor (i + j) ≠ hMonitor) →
      FindAdapter.loop GetAdapterMonitor hMonitor n i = none := by
  intro n
  induction n with
  | zero => intro i _; rfl
  | succ n ih =>
    intro i h
    unfold FindAdapter.loop
    have h0 : GetAdapterMonitor i ≠ hMonitor := by simpa using h 0 (by omega)
    cases hg : GetAdapterMonitor i with
    | none => rfl
    | some m =>
      simp only
      rw [if_neg (by rw [← hg]; exact h0)]
      exact ih (i + 1) (fun j hj => by
        have := h (j + 1) (by omega)
        rwa [show i + (j + 1) = i + 1 + j by omega] at this)

theorem FindAdapter_loop_found (GetAdapterMonitor : Nat → Option HMONITOR) (m : HMONITOR) :
    ∀ (n i k : Nat), k < n →
      (∀ j, j < k → ∃ mj, GetAdapterMonitor (i + j) = some mj ∧ mj ≠ m) →
      GetAdapterMonitor (i + k) = some m →
      FindAdapter.loop GetAdapterMonitor (some m) n i = some (i + k) := by
  intro n
  induction n with
  | zero => intro i k hk; omega
  | succ n ih =>
    intro i k hk hbefore hat
    unfold FindAdapter.loop
    cases k with
    | zero =>
      simp only [Nat.add_zero] at hat ⊢
      rw [hat]
      simp
    | succ k =>
      obtain ⟨m0, hm0, hne⟩ := hbefore 0 (by omega)
      simp only [Nat.add_zero] at hm0
      rw [hm0]
      simp only
      rw [if_neg (by simpa using hne)]
      rw [show i + (k + 1) = i + 1 + k by omega]
      exact ih (i + 1) k (by omega)
        (fun j hj => by
          have := hbefore (j + 1) (by omega)
          rwa [show i + (j + 1) = i + 1 + j by omega] at this)
        (by rwa [show i + 1 + k = i + (k + 1) by omega])

theorem FindAdapter_loop_stop (GetAdapterMonitor : Nat → Option HMONITOR)
    (hMonitor : Option HMONITOR) :
    ∀ (n i k : Nat), k < n → GetAdapterMonitor (i + k) = none →
      (∀ j, j < k → GetAdapterMonitor (i + j) ≠ hMonitor) →
      FindAdapter.loop GetAdapterMonitor hMonitor n i = none := by
  intro n
  induction n with
  | zero => intro i k hk; omega
  | succ n ih =>
    intro i k hk hat hbefore
    unfold FindAdapter.loop
    cases k with
    | zero =>
      simp only [Nat.add_zero] at hat
      rw [hat]
    | succ k =>
      have h0 : GetAdapterMonitor i ≠ hMonitor := by simpa using hbefore 0 (by omega)
      cases hg : GetAdapterMonitor i with
      | none => rfl
      | some m =>
        simp only
        rw [if_neg (by rw [← hg]; exact h0)]
        exact ih (i + 1) k (by omega) (by rwa [show i + 1 + k = i + (k + 1) by omega])
          (fun j hj => by
            have := hbefore (j + 1) (by omega)
            rwa [show i + (j + 1) = i + 1 + j by omega] at this)

theorem FindAdapter_loop_some (GetAdapterMonitor : Nat → Option HMONITOR)
    (hMonitor : Option HMONITOR) :
    ∀ (n i x : Nat), FindAdapter.loop GetAdapterMonitor hMonitor n i = some x →
      ∃ k, x = i + k ∧ k < n ∧ GetAdapterMonitor (i + k) = hMonitor ∧
        hMonitor.isSome = true ∧
        ∀ j, j < k → ∃ mj, GetAdapterMonitor (i + j) = some mj ∧ some mj ≠ hMonitor := by
  intro n
  induction n with
  | zero => intro i x h; simp [FindAdapter.loop] at h
  | succ n ih =>
    intro i x h
    unfold FindAdapter.loop at h
    cases hg : GetAdapterMonitor i with
    | none => rw [hg] at h; simp at h
    | some m =>
      rw [hg] at h
      simp only at h
      by_cases hm : some m = hMonitor
      · rw [if_pos hm] at h
        have hx : i = x := by simpa using h
        refine ⟨0, by omega, by omega, by simpa [hg] using hm, by rw [← hm]; rfl,
          fun j hj => by omega⟩
      · rw [if_neg hm] at h
        obtain ⟨k, hx, hk, hat, hs, hb⟩ := ih (i + 1) x h
        refine ⟨k + 1, by omega, by omega, by rwa [show i + (k + 1) = i + 1 + k by omega], hs, ?_⟩
        intro j hj
        cases j with
        | zero => exact ⟨m, by simpa using hg, hm⟩
        | succ j =>
          have := hb j (by omega)
          rwa [show i + 1 + j = i + (j + 1) by omega] at this

theorem CreateD3DDevice_of_adapter_failed (e : EVRPresentEngine) (w : CreateDeviceResponses)
    (h9 : e.m_D3D9.isSome = true) (hm : e.m_DeviceManager.isSome = true)
    (had : CreateD3DDevice.adapter e w = (E_FAIL, D3DADAPTER_DEFAULT)) :
    (CreateD3DDevice e w).ret = E_FAIL ∧ (CreateD3DDevice e w).engine = e ∧
      (CreateD3DDevice e w).trace = [] := by
  have hinit : (e.m_D3D9.isNone || e.m_DeviceManager.isNone) = false := by
    cases h1 : e.m_D3D9 <;> cases h2 : e.m_DeviceManager <;> simp_all
  have hf : FAILED E_FAIL = true := by decide
  unfold CreateD3DDevice
  simp [hinit, had, hf]

theorem CreateD3DDevice_attach_adapter (e : EVRPresentEngine) (w : CreateDeviceResponses)
    (t : List NativeCall) (x : Nat)
    (ht : ∀ a h f pp hr, NativeCall.CreateDeviceEx a h f pp hr ∈ t → a = x) :
    ∀ a h f pp hr, NativeCall.CreateDeviceEx a h f pp hr ∈ (CreateD3DDevice.attach e w t).trace →
      a = x := by
  intro a h f pp hr hmem
  unfold CreateD3DDevice.attach at hmem
  split at hmem <;> [split at hmem; skip]
  · cases hd : e.m_Device <;>
      simp [attachTrace, hd] at hmem <;> exact ht a h f pp hr hmem
  · simp at hmem
    exact ht a h f pp hr hmem
  · simp at hmem
    exact ht a h f pp hr hmem

theorem CreateD3DDevice_device_adapter (e : EVRPresentEngine) (w : CreateDeviceResponses)
    (x : Nat) :
    ∀ a h f pp hr,
      NativeCall.CreateDeviceEx a h f pp hr ∈ (CreateD3DDevice.device e w x).trace → a = x := by
  intro a h f pp hr hmem
  unfold CreateD3DDevice.device at hmem
  split at hmem
  · simp at hmem
  · simp only at hmem
    split at hmem
    · simp at hmem
      exact hmem.1
    · refine CreateD3DDevice_attach_adapter e w _ x ?_ a h f pp hr hmem
      intro a1 h1 f1 pp1 hr1 hm1
      simp at hm1
      exact hm1.1

/-- C15 (amended): in `CreateD3DDevice` on an initialised engine, the adapter
is the default adapter when no window is bound; with a window bound it is the
first adapter, in enumeration order, whose monitor is the monitor of the
window, provided the adapters before it report a monitor; and every
`CreateDeviceEx` issued receives the adapter selected.  When a window is bound
and no adapter's monitor is the monitor of the window, there is no fallback:
`CreateD3DDevice` fails with `E_FAIL`, issues no native call and leaves the
engine unchanged.  The scan stops at the first adapter that reports no
monitor: with a window bound, an adapter without a monitor and no match before
it, `CreateD3DDevice` fails in the same way, whatever the adapters after it
report.  Conversely, with a window bound, an adapter is selected only if it is
enumerated, its monitor is the monitor of the window and each adapter before
it reports another monitor; in every other case the selection fails with
`E_FAIL` and `CreateD3DDevice` returns that failure, with no native call and
the engine unchanged. -/
theorem CreateD3DDevice_adapter_choice (e : EVRPresentEngine) (w : CreateDeviceResponses)
    (h9 : e.m_D3D9.isSome = true) (hm : e.m_DeviceManager.isSome = true) :
    (e.m_hwnd = none → CreateD3DDevice.adapter e w = (S_OK, D3DADAPTER_DEFAULT)) ∧
    (∀ hwnd k m, e.m_hwnd = some hwnd → k < w.AdapterCount → w.hMonitor = some m →
      w.GetAdapterMonitor k = some m →
      (∀ j, j < k → ∃ mj, w.GetAdapterMonitor j = some mj ∧ mj ≠ m) →
      CreateD3DDevice.adapter e w = (S_OK, k)) ∧
    (SUCCEEDED (CreateD3DDevice.adapter e w).1 = true →
      CreateD3DDevice e w = CreateD3DDevice.device e w (CreateD3DDevice.adapter e w).2) ∧
    (∀ a h f pp hr, NativeCall.CreateDeviceEx a h f pp hr ∈ (CreateD3DDevice e w).trace →
      a = (CreateD3DDevice.adapter e w).2) ∧
    (∀ hwnd, e.m_hwnd = some hwnd →
      (∀ j, j < w.AdapterCount → w.GetAdapterMonitor j ≠ w.hMonitor) →
      (CreateD3DDevice e w).ret = E_FAIL ∧ (CreateD3DDevice e w).engine = e ∧
      (CreateD3DDevice e w).trace = []) ∧
    (∀ hwnd k, e.m_hwnd = some hwnd → k < w.AdapterCount → w.GetAdapterMonitor k = none →
      (∀ j, j < k → w.GetAdapterMonitor j ≠ w.hMonitor) →
      CreateD3DDevice.adapter e w = (E_FAIL, D3DADAPTER_DEFAULT) ∧
      (CreateD3DDevice e w).ret = E_FAIL ∧ (CreateD3DDevice e w).engine = e ∧
      (CreateD3DDevice e w).trace = []) ∧
    (∀ hwnd, e.m_hwnd = some hwnd → SUCCEEDED (CreateD3DDevice.adapter e w).1 = true →
      (CreateD3DDevice.adapter e w).1 = S_OK ∧
      (CreateD3DDevice.adapter e w).2 < w.AdapterCount ∧
      w.GetAdapterMonitor (CreateD3DDevice.adapter e w).2 = w.hMonitor ∧
      w.hMonitor.isSome = true ∧
      ∀ j, j < (CreateD3DDevice.adapter e w).2 →
        ∃ mj, w.GetAdapterMonitor j = some mj ∧ some mj ≠ w.hMonitor) ∧
    (∀ hwnd, e.m_hwnd = some hwnd → SUCCEEDED (CreateD3DDevice.adapter e w).1 = false →
      CreateD3DDevice.adapter e w = (E_FAIL, D3DADAPTER_DEFAULT) ∧
      (CreateD3DDevice e w).ret = E_FAIL ∧ (CreateD3DDevice e w).engine = e ∧
      (CreateD3DDevice e w).trace = []) := by
  have hinit : (e.m_D3D9.isNone || e.m_DeviceManager.isNone) = false := by
    cases h1 : e.m_D3D9 <;> cases h2 : e.m_DeviceManager <;> simp_all
  refine ⟨?_, ?_, ?_, ?_, ?_, ?_, ?_, ?_⟩
  · intro hw
    unfold CreateD3DDevice.adapter
    rw [hw]
  · intro hwnd k m hw hk hmon hat hbefore
    unfold CreateD3DDevice.adapter FindAdapter
    rw [hw]
    simp only [hmon]
    have := FindAdapter_loop_found w.GetAdapterMonitor m w.AdapterCount 0 k hk
      (fun j hj => by simpa using hbefore j hj) (by simpa using hat)
    rw [this]
    simp
  · intro hs
    unfold CreateD3DDevice
    simp only [hinit, Bool.false_eq_true, if_false, FAILED_of_SUCCEEDED hs]
  · intro a h f pp hr hmem
    unfold CreateD3DDevice at hmem
    simp only [hinit, Bool.false_eq_true, if_false] at hmem
    split at hmem
    · simp at hmem
    · exact CreateD3DDevice_device_adapter e w _ a h f pp hr hmem
  · intro hwnd hw hno
    have hloop := FindAdapter_loop_none w.GetAdapterMonitor w.hMonitor w.AdapterCount 0
      (fun j hj => by simpa using hno j hj)
    have had : CreateD3DDevice.adapter e w = (E_FAIL, D3DADAPTER_DEFAULT) := by
      unfold CreateD3DDevice.adapter FindAdapter
      rw [hw]
      simp only [hloop]
    exact CreateD3DDevice_of_adapter_failed e w h9 hm had
  · intro hwnd k hw hk hat hbefore
    have hloop := FindAdapter_loop_stop w.GetAdapterMonitor w.hMonitor w.AdapterCount 0 k hk
      (by simpa using hat) (fun j hj => by simpa using hbefore j hj)
    have had : CreateD3DDevice.adapter e w = (E_FAIL, D3DADAPTER_DEFAULT) := by
      unfold CreateD3DDevice.adapter FindAdapter
      rw [hw]
      simp only [hloop]
    exact ⟨had, CreateD3DDevice_of_adapter_failed e w h9 hm had⟩
  · intro hwnd hw hs
    unfold CreateD3DDevice.adapter FindAdapter at hs ⊢
    rw [hw] at hs ⊢
    simp only at hs ⊢
    cases hl : FindAdapter.loop w.GetAdapterMonitor w.hMonitor w.AdapterCount 0 with
    | none =>
      rw [hl] at hs
      exact absurd hs (by decide)
    | some x =>
      obtain ⟨k, hx, hk, hat, hsome, hb⟩ :=
        FindAdapter_loop_some w.GetAdapterMonitor w.hMonitor w.AdapterCount 0 x hl
      have hxk : x = k := by omega
      subst hxk
      refine ⟨rfl, hk, by simpa using hat, hsome, fun j hj => ?_⟩
      simpa using hb j hj
  · intro hwnd hw hs
    have had : CreateD3DDevice.adapter e w = (E_FAIL, D3DADAPTER_DEFAULT) := by
      unfold CreateD3DDevice.adapter FindAdapter at hs ⊢
      rw [hw] at hs ⊢
      simp only at hs ⊢
      cases hl : FindAdapter.loop w.GetAdapterMonitor w.hMonitor w.AdapterCount 0 with
      | none => rfl
      | some x =>
        rw [hl] at hs
        have hok : SUCCEEDED S_OK = true := by decide
        change SUCCEEDED S_OK = false at hs
        rw [hok] at hs
        cases hs
    exact ⟨had, CreateD3DDevice_of_adapter_failed e w h9 hm had⟩

/-- C15, witness: the window of the engine is on monitor 101.  With adapters
on monitors 100 and 101 adapter 1 is selected and handed to `CreateDeviceEx`;
with adapter 1 reporting no monitor and adapter 2 on monitor 101 the scan
stops at adapter 1 and `CreateD3DDevice` fails with `E_FAIL`. -/
theorem CreateD3DDevice_adapter_choice_witness :
    CreateD3DDevice.adapter sampleEmptyWindowEngine sampleCreateDeviceResponses = (S_OK, 1) ∧
    (∀ a h f pp hr, NativeCall.CreateDeviceEx a h f pp hr ∈
        (CreateD3DDevice sampleEmptyWindowEngine sampleCreateDeviceResponses).trace →
      a = (CreateD3DDevice.adapter sampleEmptyWindowEngine sampleCreateDeviceResponses).2) ∧
    sampleStopResponses.GetAdapterMonitor 2 = sampleStopResponses.hMonitor ∧
    CreateD3DDevice.adapter sampleEmptyWindowEngine sampleStopResponses
      = (E_FAIL, D3DADAPTER_DEFAULT) ∧
    (CreateD3DDevice sampleEmptyWindowEngine sampleStopResponses).ret = E_FAIL ∧
    (CreateD3DDevice sampleEmptyWindowEngine sampleStopResponses).engine
      = sampleEmptyWindowEngine ∧
    (CreateD3DDevice sampleEmptyWindowEngine sampleStopResponses).trace = [] :=
  have h := CreateD3DDevice_adapter_choice sampleEmptyWindowEngine sampleCreateDeviceResponses
    rfl rfl
  have hstop := (CreateD3DDevice_adapter_choice sampleEmptyWindowEngine sampleStopResponses
    rfl rfl).2.2.2.2.2.1 3 1 rfl (by decide) rfl (fun j hj => by
      have : j = 0 := by omega
      subst this
      decide)
  ⟨h.2.1 3 1 101 rfl (by decide) rfl rfl (fun j hj => by
      have : j = 0 := by omega
      subst this
      exact ⟨100, rfl, by decide⟩),
    h.2.2.2.1, rfl, hstop⟩

/-- C15, counterexample: window 3 is bound and is on monitor 102, the two
adapters are on monitors 100 and 101.  `CreateD3DDevice` returns `E_FAIL`; it
issues no `CreateDeviceEx` - neither on the default adapter nor on another -
and the engine keeps the device it had. -/
theorem CreateD3DDevice_adapter_choice_counterexample :
    sampleEmptyWindowEngine.m_hwnd = some 3 ∧
    (CreateD3DDevice sampleEmptyWindowEngine sampleNoMatchResponses).ret = E_FAIL ∧
    (CreateD3DDevice sampleEmptyWindowEngine sampleNoMatchResponses).trace = [] ∧
    (CreateD3DDevice sampleEmptyWindowEngine sampleNoMatchResponses).engine
      = sampleEmptyWindowEngine := by
  decide

end LibISDB.DirectShow
